import Mathlib

/-!
Shallow embedding of the `TuitionFeeContract` Solidity contract (the
hold-funds variant: payments stay in the contract, scholarship increases
trigger automatic partial refunds, `restorePayment` recreates records after
a chain restart) together with the JSON snapshot mirror
(`scripts/data-manager.js`) and the replay procedure
(`scripts/restore-data.js`).

Modelling conventions:
- `uint256` values are `Nat`; every subtraction performed by the source is
  guarded by the source's own checks (scholarship percent is at most 100,
  refunds are clamped to the remaining balance), so `Nat` subtraction agrees
  with EVM checked subtraction on all reachable values.
- `address` is `Nat` (`0` is the zero address); `string` is `String`.
- Solidity mappings are total functions returning the all-zero value by
  default, exactly as EVM storage does.
- Each external function becomes `State → … → Except Err State`; a `require`
  failure is `Except.error`.  The EVM reverts all storage writes of a failed
  call, so the transition relation `step` keeps the pre-state on error.
- External ETH transfers (`call{value: …}`) can fail for reasons outside the
  contract; functions that transfer take an extra `transferOk : Bool`
  describing whether the recipient accepts the transfer.
- `block.timestamp` and `msg.value` are explicit arguments.
-/

namespace Tuition

/-- Pointwise update of a map modelled as a total function. -/
def upd {α β : Type} [DecidableEq α] (m : α → β) (k : α) (v : β) : α → β :=
  fun x => if x = k then v else m x

@[simp] theorem upd_same {α β : Type} [DecidableEq α] (m : α → β) (k : α) (v : β) :
    upd m k v k = v := by
  simp [upd]

theorem upd_ne {α β : Type} [DecidableEq α] (m : α → β) (k : α) (v : β)
    {x : α} (h : x ≠ k) : upd m k v x = m x := by
  simp [upd, h]

@[simp] theorem upd_apply {α β : Type} [DecidableEq α] (m : α → β) (k : α) (v : β)
    (x : α) : upd m k v x = if x = k then v else m x := rfl

/-- `struct Payment` of the contract. -/
structure Payment where
  student : Nat
  studentId : String
  semester : String
  amount : Nat
  amountAfterRefund : Nat
  timestamp : Nat
  paid : Bool
  refunded : Bool
  deriving DecidableEq, Repr

/-- EVM zero value of `Payment` (value of an untouched mapping slot). -/
def Payment.zero : Payment :=
  { student := 0, studentId := "", semester := "", amount := 0
    amountAfterRefund := 0, timestamp := 0, paid := false, refunded := false }

/-- `struct Student` of the contract. -/
structure Student where
  studentId : String
  walletAddress : Nat
  scholarshipPercent : Nat
  isRegistered : Bool
  deriving DecidableEq, Repr

/-- EVM zero value of `Student`. -/
def Student.zero : Student :=
  { studentId := "", walletAddress := 0, scholarshipPercent := 0, isRegistered := false }

/-- `struct FeeSchedule` of the contract. -/
structure FeeSchedule where
  semester : String
  baseAmount : Nat
  deadline : Nat
  isActive : Bool
  deriving DecidableEq, Repr

/-- EVM zero value of `FeeSchedule`. -/
def FeeSchedule.zero : FeeSchedule :=
  { semester := "", baseAmount := 0, deadline := 0, isActive := false }

/-- The contract's storage plus its ETH balance. -/
structure State where
  universityWallet : Nat
  paymentCounter : Nat
  totalCollected : Nat
  totalRefunded : Nat
  payments : Nat → Payment
  students : Nat → Student
  studentIdToAddress : String → Nat
  feeSchedules : String → FeeSchedule
  studentSemesterPayment : Nat → String → Nat
  studentPaymentIds : Nat → List Nat
  activeSemesters : List String
  registeredStudents : List Nat
  balance : Nat

/-- One error per `require` message of the contract. -/
inductive Err where
  | invalidWallet
  | alreadyRegistered
  | duplicateId
  | notRegistered
  | invalidPercentage
  | invalidAmount
  | invalidDeadline
  | inactiveSemester
  | alreadyPaid
  | insufficientPayment
  | paymentNotFound
  | alreadyRefunded
  | nothingToRefund
  | insufficientContractBalance
  | refundTransferFailed
  | paymentAlreadyExists
  | noFundsToWithdraw
  | insufficientBalance
  | withdrawalFailed
  deriving DecidableEq, Repr

/-- State after `constructor(_universityWallet)`: all storage zeroed except
the university wallet. -/
def initState (uw : Nat) : State :=
  { universityWallet := uw, paymentCounter := 0, totalCollected := 0
    totalRefunded := 0, payments := fun _ => Payment.zero
    students := fun _ => Student.zero, studentIdToAddress := fun _ => 0
    feeSchedules := fun _ => FeeSchedule.zero
    studentSemesterPayment := fun _ _ => 0, studentPaymentIds := fun _ => []
    activeSemesters := [], registeredStudents := [], balance := 0 }

/-- `registerStudent(_walletAddress, _studentId)`. -/
def registerStudent (s : State) (w : Nat) (sid : String) : Except Err State :=
  if w = 0 then .error .invalidWallet
  else if (s.students w).isRegistered then .error .alreadyRegistered
  else if s.studentIdToAddress sid ≠ 0 then .error .duplicateId
  else .ok { s with
    students := upd s.students w
      { studentId := sid, walletAddress := w, scholarshipPercent := 0, isRegistered := true }
    studentIdToAddress := upd s.studentIdToAddress sid w
    registeredStudents := s.registeredStudents ++ [w] }

/-- Body of the refund loop of `applyScholarship`, one iteration: the
accumulator carries the payments mapping and the running
`totalRefundAmount`. -/
def scholarshipStep (fees : String → FeeSchedule) (newP oldP : Nat)
    (acc : (Nat → Payment) × Nat) (pid : Nat) : (Nat → Payment) × Nat :=
  let p := acc.1 pid
  if p.paid ∧ ¬ p.refunded ∧ 0 < p.amountAfterRefund then
    let baseFee := (fees p.semester).baseAmount
    let shouldPay := baseFee - baseFee * newP / 100
    let paidFor := baseFee - baseFee * oldP / 100
    if shouldPay < paidFor then
      let r0 := paidFor - shouldPay
      let r := if p.amountAfterRefund < r0 then p.amountAfterRefund else r0
      (upd acc.1 pid { p with amountAfterRefund := p.amountAfterRefund - r }, acc.2 + r)
    else acc
  else acc

/-- `applyScholarship(_studentAddress, _percent)`: sets the percent, and when
it increased, walks the student's payments refunding the overpaid part of
each, then transfers the accumulated amount to the student. -/
def applyScholarship (s : State) (a percent : Nat) (transferOk : Bool) :
    Except Err State :=
  if ¬ (s.students a).isRegistered then .error .notRegistered
  else if 100 < percent then .error .invalidPercentage
  else
    let oldPercent := (s.students a).scholarshipPercent
    let newStudents := upd s.students a { s.students a with scholarshipPercent := percent }
    let s1 := { s with students := newStudents }
    if oldPercent < percent then
      let res := (s1.studentPaymentIds a).foldl
        (scholarshipStep s1.feeSchedules percent oldPercent) (s1.payments, 0)
      let s2 := { s1 with payments := res.1 }
      if 0 < res.2 then
        if s2.balance < res.2 then .error .insufficientContractBalance
        else if transferOk then
          .ok { s2 with totalRefunded := s2.totalRefunded + res.2,
                        balance := s2.balance - res.2 }
        else .error .refundTransferFailed
      else .ok s2
    else .ok s1

/-- `setFeeSchedule(_semester, _baseAmount, _deadline)`; `now` is
`block.timestamp`. -/
def setFeeSchedule (s : State) (sem : String) (base deadline now : Nat) :
    Except Err State :=
  if base = 0 then .error .invalidAmount
  else if ¬ now < deadline then .error .invalidDeadline
  else .ok { s with
    activeSemesters :=
      if ¬ (s.feeSchedules sem).isActive then s.activeSemesters ++ [sem]
      else s.activeSemesters
    feeSchedules := upd s.feeSchedules sem
      { semester := sem, baseAmount := base, deadline := deadline, isActive := true } }

/-- `setUniversityWallet(_newWallet)`. -/
def setUniversityWallet (s : State) (w : Nat) : Except Err State :=
  if w = 0 then .error .invalidWallet
  else .ok { s with universityWallet := w }

/-- `withdrawToUniversity(_amount)` (0 means withdraw everything). -/
def withdrawToUniversity (s : State) (amt : Nat) (transferOk : Bool) :
    Except Err State :=
  if s.balance = 0 then .error .noFundsToWithdraw
  else
    let w := if amt = 0 then s.balance else amt
    if s.balance < w then .error .insufficientBalance
    else if transferOk then .ok { s with balance := s.balance - w }
    else .error .withdrawalFailed

/-- `processRefund(_paymentId)`: full terminal refund of the remaining
balance of one payment. -/
def processRefund (s : State) (pid : Nat) (transferOk : Bool) :
    Except Err State :=
  let p := s.payments pid
  if ¬ p.paid then .error .paymentNotFound
  else if p.refunded then .error .alreadyRefunded
  else if p.amountAfterRefund = 0 then .error .nothingToRefund
  else if s.balance < p.amountAfterRefund then .error .insufficientContractBalance
  else if transferOk then
    .ok { s with
      payments := upd s.payments pid { p with refunded := true, amountAfterRefund := 0 }
      totalRefunded := s.totalRefunded + p.amountAfterRefund
      balance := s.balance - p.amountAfterRefund }
  else .error .refundTransferFailed

/-- `restorePayment(_studentAddress, _semester, _amount, _timestamp)`:
privileged replay path creating a payment record without moving funds; the
remaining amount is clamped to what the student should pay under the
current scholarship and fee schedule. -/
def restorePayment (s : State) (a : Nat) (sem : String) (amount ts : Nat) :
    Except Err State :=
  if ¬ (s.students a).isRegistered then .error .notRegistered
  else if s.studentSemesterPayment a sem ≠ 0 then .error .paymentAlreadyExists
  else
    let id := s.paymentCounter + 1
    let pct := (s.students a).scholarshipPercent
    let baseFee := (s.feeSchedules sem).baseAmount
    let shouldPay := baseFee - baseFee * pct / 100
    let aar := if shouldPay < amount then shouldPay else amount
    .ok { s with
      paymentCounter := id
      payments := upd s.payments id
        { student := a, studentId := (s.students a).studentId, semester := sem
          amount := amount, amountAfterRefund := aar, timestamp := ts
          paid := true, refunded := false }
      studentSemesterPayment := upd s.studentSemesterPayment a
        (upd (s.studentSemesterPayment a) sem id)
      studentPaymentIds := upd s.studentPaymentIds a (s.studentPaymentIds a ++ [id])
      totalCollected := s.totalCollected + amount }

/-- `calculateFee(_student, _semester)`: pure view, never reverts. -/
def calculateFee (s : State) (a : Nat) (sem : String) : Nat :=
  let base := (s.feeSchedules sem).baseAmount
  let pct := (s.students a).scholarshipPercent
  if pct = 0 then base else base - base * pct / 100

/-- `payTuition(_semester)` called by wallet `a` with `msg.value = value` at
`block.timestamp = now`. -/
def payTuition (s : State) (a : Nat) (sem : String) (value now : Nat) :
    Except Err State :=
  if ¬ (s.students a).isRegistered then .error .notRegistered
  else if ¬ (s.feeSchedules sem).isActive then .error .inactiveSemester
  else if s.studentSemesterPayment a sem ≠ 0 then .error .alreadyPaid
  else if value < calculateFee s a sem then .error .insufficientPayment
  else
    let id := s.paymentCounter + 1
    .ok { s with
      paymentCounter := id
      payments := upd s.payments id
        { student := a, studentId := (s.students a).studentId, semester := sem
          amount := value, amountAfterRefund := value, timestamp := now
          paid := true, refunded := false }
      studentSemesterPayment := upd s.studentSemesterPayment a
        (upd (s.studentSemesterPayment a) sem id)
      studentPaymentIds := upd s.studentPaymentIds a (s.studentPaymentIds a ++ [id])
      totalCollected := s.totalCollected + value
      balance := s.balance + value }

/-- `hasStudentPaid(_student, _semester)`. -/
def hasStudentPaid (s : State) (a : Nat) (sem : String) : Bool :=
  let pid := s.studentSemesterPayment a sem
  if pid = 0 then false
  else (s.payments pid).paid && !(s.payments pid).refunded

/-- The external operations that mutate ledger state, with their
environment inputs (timestamps, sent value, transfer outcomes). -/
inductive Op where
  | registerStudent (wallet : Nat) (sid : String)
  | applyScholarship (wallet percent : Nat) (transferOk : Bool)
  | setFeeSchedule (sem : String) (base deadline now : Nat)
  | payTuition (wallet : Nat) (sem : String) (value now : Nat)
  | processRefund (pid : Nat) (transferOk : Bool)
  | restorePayment (wallet : Nat) (sem : String) (amount ts : Nat)
  | withdrawToUniversity (amt : Nat) (transferOk : Bool)
  | setUniversityWallet (w : Nat)
  deriving DecidableEq, Repr

/-- Dispatch one operation. -/
def exec (s : State) : Op → Except Err State
  | .registerStudent w sid => registerStudent s w sid
  | .applyScholarship a p tok => applyScholarship s a p tok
  | .setFeeSchedule sem b d n => setFeeSchedule s sem b d n
  | .payTuition a sem v n => payTuition s a sem v n
  | .processRefund pid tok => processRefund s pid tok
  | .restorePayment a sem amt ts => restorePayment s a sem amt ts
  | .withdrawToUniversity amt tok => withdrawToUniversity s amt tok
  | .setUniversityWallet w => setUniversityWallet s w

/-- EVM transaction semantics: a reverted call leaves storage unchanged. -/
def step (s : State) (o : Op) : State :=
  match exec s o with
  | .ok s' => s'
  | .error _ => s

/-- Run a sequence of transactions. -/
def run (s : State) (ops : List Op) : State :=
  ops.foldl step s

/-- Whether an operation is the privileged restore path. -/
def Op.isRestore : Op → Bool
  | .restorePayment _ _ _ _ => true
  | _ => false

/-! ## Snapshot Store (`scripts/data-manager.js`)

The side JSON document mirroring the on-chain state.  Wallets are the same
`Nat` addresses as in the contract model, so the case-insensitive wallet
comparison of the JavaScript source is plain equality here. -/

/-- One entry of the snapshot's `students` array. -/
structure SnapStudent where
  wallet : Nat
  studentId : String
  deriving DecidableEq, Repr

/-- One entry of the snapshot's `feeSchedules` array. -/
structure SnapFee where
  semester : String
  amount : Nat
  deadline : Nat
  deriving DecidableEq, Repr

/-- One entry of the snapshot's `scholarships` array. -/
structure SnapScholarship where
  wallet : Nat
  percent : Nat
  deriving DecidableEq, Repr

/-- One entry of the snapshot's `payments` array. -/
structure SnapPayment where
  wallet : Nat
  semester : String
  amount : Nat
  timestamp : Nat
  deriving DecidableEq, Repr

/-- The snapshot document (timestamps like `createdAt` and `lastUpdated`
are irrelevant to replay and omitted; registration requests are not
replayed by the restore script). -/
structure Snapshot where
  students : List SnapStudent
  feeSchedules : List SnapFee
  scholarships : List SnapScholarship
  payments : List SnapPayment
  deriving DecidableEq, Repr

/-- Empty snapshot (`loadData` default). -/
def Snapshot.empty : Snapshot :=
  { students := [], feeSchedules := [], scholarships := [], payments := [] }

/-- `addStudent` of data-manager: insert unless the wallet is present. -/
def snapAddStudent (d : Snapshot) (w : Nat) (sid : String) : Snapshot :=
  if d.students.any (fun s => s.wallet = w) then d
  else { d with students := d.students ++ [{ wallet := w, studentId := sid }] }

/-- `setScholarship` of data-manager: upsert by wallet. -/
def snapSetScholarship (d : Snapshot) (w p : Nat) : Snapshot :=
  if d.scholarships.any (fun x => x.wallet = w) then
    { d with scholarships :=
        d.scholarships.map (fun x => if x.wallet = w then { x with percent := p } else x) }
  else { d with scholarships := d.scholarships ++ [{ wallet := w, percent := p }] }

/-- `addFeeSchedule` of data-manager: upsert by semester. -/
def snapAddFeeSchedule (d : Snapshot) (sem : String) (amt dl : Nat) : Snapshot :=
  if d.feeSchedules.any (fun x => x.semester = sem) then
    let f := fun (x : SnapFee) =>
      if x.semester = sem then { x with amount := amt, deadline := dl } else x
    { d with feeSchedules := d.feeSchedules.map f }
  else { d with feeSchedules := d.feeSchedules ++ [{ semester := sem, amount := amt, deadline := dl }] }

/-- `addPayment` of data-manager: idempotent insert keyed by
(wallet, semester). -/
def snapAddPayment (d : Snapshot) (w : Nat) (sem : String) (amt ts : Nat) : Snapshot :=
  if d.payments.any (fun x => x.wallet = w ∧ x.semester = sem) then d
  else { d with payments :=
    d.payments ++ [{ wallet := w, semester := sem, amount := amt, timestamp := ts }] }

/-! ## Restore replay (`scripts/restore-data.js`)

Replays the snapshot into a freshly deployed contract in the fixed order
fee schedules → students → scholarships → payments, tolerating per-record
failures (a failed transaction is logged and skipped). -/

/-- Deadline adjustment of the restore script: an expired deadline is pushed
one year past the replay time. -/
def adjustDeadline (rn d : Nat) : Nat :=
  if d ≤ rn then rn + 365 * 24 * 60 * 60 else d

/-- Replay one fee schedule record, skipping on failure. -/
def replayFee (rn : Nat) (s : State) (f : SnapFee) : State :=
  match setFeeSchedule s f.semester f.amount (adjustDeadline rn f.deadline) rn with
  | .ok s' => s'
  | .error _ => s

/-- Replay one student record, skipping on failure. -/
def replayStudent (s : State) (st : SnapStudent) : State :=
  match registerStudent s st.wallet st.studentId with
  | .ok s' => s'
  | .error _ => s

/-- Replay one scholarship record, skipping on failure (the refund transfer
cannot trigger during replay because payments are replayed last, so the
transfer outcome is irrelevant; the owner account accepts transfers). -/
def replayScholarship (s : State) (x : SnapScholarship) : State :=
  match applyScholarship s x.wallet x.percent true with
  | .ok s' => s'
  | .error _ => s

/-- Replay one payment record through `restorePayment`, skipping on
failure. -/
def replayPayment (s : State) (x : SnapPayment) : State :=
  match restorePayment s x.wallet x.semester x.amount x.timestamp with
  | .ok s' => s'
  | .error _ => s

/-- The whole restore run of `scripts/restore-data.js` at replay time
`rn`. -/
def replay (rn : Nat) (d : Snapshot) (s : State) : State :=
  let s1 := d.feeSchedules.foldl (replayFee rn) s
  let s2 := d.students.foldl replayStudent s1
  let s3 := d.scholarships.foldl replayScholarship s2
  d.payments.foldl replayPayment s3

/-! ## Derived observation functions used by the claims -/

/-- The error of an operation, `none` when it succeeds. -/
def execErr (s : State) (o : Op) : Option Err :=
  match exec s o with
  | .ok _ => none
  | .error e => some e

/-- Sum of `f` over the payment records with ids `1..n`. -/
def sumTo (pm : Nat → Payment) (f : Payment → Nat) : Nat → Nat
  | 0 => 0
  | n + 1 => sumTo pm f n + f (pm (n + 1))

/-- Sum of the gross amounts of all payment records. -/
def collectedSum (s : State) : Nat :=
  sumTo s.payments (fun p => p.amount) s.paymentCounter

/-- Sum of the remaining (after-refund) amounts of all payment records. -/
def remainingSum (s : State) : Nat :=
  sumTo s.payments (fun p => p.amountAfterRefund) s.paymentCounter

/-- Sum of (gross - remaining) over all payment records. -/
def refundedSum (s : State) : Nat :=
  sumTo s.payments (fun p => p.amount - p.amountAfterRefund) s.paymentCounter

/-- The financial-totals invariant claimed by the spec: the running
counters agree with the sums over the payment records. -/
def TotalsOK (s : State) : Prop :=
  s.totalRefunded = refundedSum s ∧ s.totalCollected = collectedSum s

/-- The refund loop of `applyScholarship` applied to the current state:
the accumulated `totalRefundAmount` the call would transfer. -/
def scholarshipRefundTotal (s : State) (a p : Nat) : Nat :=
  ((s.studentPaymentIds a).foldl
    (scholarshipStep s.feeSchedules p (s.students a).scholarshipPercent)
    (s.payments, 0)).2

/-- Two payment records equal in every field except the timestamp. -/
def PaymentEqIgnTs (p q : Payment) : Prop :=
  p.student = q.student ∧ p.studentId = q.studentId ∧ p.semester = q.semester ∧
  p.amount = q.amount ∧ p.amountAfterRefund = q.amountAfterRefund ∧
  p.paid = q.paid ∧ p.refunded = q.refunded

/-- Two fee schedules equal except the deadline (a timestamp, which the
restore script may push forward). -/
def FeeEqIgnDeadline (f g : FeeSchedule) : Prop :=
  f.semester = g.semester ∧ f.baseAmount = g.baseAmount ∧ f.isActive = g.isActive

/-- Ledger-state equality ignoring timestamps: payment records (up to
timestamp), students, id mapping, fee schedules (up to deadline), the
per-pair payment index, per-student payment lists, enumeration arrays,
payment counter and the collected total.  The contract's ETH balance is the
settlement layer's quantity and is not part of the logical ledger. -/
def LedgerEqIgnTs (s t : State) : Prop :=
  s.paymentCounter = t.paymentCounter ∧
  s.totalCollected = t.totalCollected ∧
  (∀ i, PaymentEqIgnTs (s.payments i) (t.payments i)) ∧
  (∀ w, s.students w = t.students w) ∧
  (∀ sid, s.studentIdToAddress sid = t.studentIdToAddress sid) ∧
  (∀ sem, FeeEqIgnDeadline (s.feeSchedules sem) (t.feeSchedules sem)) ∧
  (∀ a sem, s.studentSemesterPayment a sem = t.studentSemesterPayment a sem) ∧
  (∀ a, s.studentPaymentIds a = t.studentPaymentIds a) ∧
  s.activeSemesters = t.activeSemesters ∧
  s.registeredStudents = t.registeredStudents

/-- Full ledger-state equality ignoring timestamps: the ignoring-timestamps
equivalence together with agreement of the refunded total. -/
def LedgerEqFull (s t : State) : Prop :=
  LedgerEqIgnTs s t ∧ s.totalRefunded = t.totalRefunded

/-- `q` is `p` with at most the remaining amount lowered: what one
iteration of the scholarship refund loop can do to a record. -/
def SameShape (p q : Payment) : Prop :=
  q.student = p.student ∧ q.studentId = p.studentId ∧ q.semester = p.semester ∧
  q.amount = p.amount ∧ q.timestamp = p.timestamp ∧ q.paid = p.paid ∧
  q.refunded = p.refunded ∧ q.amountAfterRefund ≤ p.amountAfterRefund

/-- Structural invariant of every reachable contract state. -/
structure Inv (s : State) : Prop where
  outRange : ∀ i, s.paymentCounter < i ∨ i = 0 → s.payments i = Payment.zero
  bounds : ∀ i, (s.payments i).amountAfterRefund ≤ (s.payments i).amount
  collected : s.totalCollected = collectedSum s
  sspOwner : ∀ a sem, s.studentSemesterPayment a sem ≠ 0 →
    s.studentSemesterPayment a sem ≤ s.paymentCounter ∧
    (s.payments (s.studentSemesterPayment a sem)).student = a ∧
    (s.payments (s.studentSemesterPayment a sem)).semester = sem ∧
    (s.students a).isRegistered = true
  sspBack : ∀ i, 1 ≤ i → i ≤ s.paymentCounter →
    (s.payments i).paid = true ∧
    s.studentSemesterPayment (s.payments i).student (s.payments i).semester = i
  sched : ∀ sem, (s.feeSchedules sem).isActive = false →
    s.feeSchedules sem = FeeSchedule.zero

/-- The additive form of the refunded-total equation (equivalent to
`totalRefunded = refundedSum` given `bounds`, but stable under `Nat`
subtraction). -/
def RefundedAcc (s : State) : Prop :=
  s.totalRefunded + remainingSum s = collectedSum s

/-! ## Lemmas about sums over payment ids -/

theorem sumTo_eqOn {pm pm' : Nat → Payment} {f : Payment → Nat} {n : Nat}
    (h : ∀ i, 1 ≤ i → i ≤ n → f (pm i) = f (pm' i)) :
    sumTo pm f n = sumTo pm' f n := by
  induction n with
  | zero => rfl
  | succ n ih =>
    simp only [sumTo]
    rw [ih (fun i h1 h2 => h i h1 (Nat.le_succ_of_le h2)),
      h (n + 1) (Nat.succ_le_succ (Nat.zero_le n)) (Nat.le_refl _)]

theorem sumTo_upd_high {pm : Nat → Payment} {f : Payment → Nat} {n k : Nat}
    (hk : n < k) (v : Payment) : sumTo (upd pm k v) f n = sumTo pm f n := by
  refine sumTo_eqOn (fun i h1 h2 => ?_)
  rw [upd_ne]
  omega

theorem sumTo_upd_in {pm : Nat → Payment} {f : Payment → Nat} {n k : Nat}
    (h1 : 1 ≤ k) (h2 : k ≤ n) (v : Payment) :
    sumTo (upd pm k v) f n + f (pm k) = sumTo pm f n + f v := by
  induction n with
  | zero => omega
  | succ n ih =>
    by_cases hk : k = n + 1
    · subst hk
      simp only [sumTo, sumTo_upd_high (Nat.lt_succ_self n), upd_same]
      omega
    · have hk' : k ≤ n := by omega
      have hne : n + 1 ≠ k := fun h => hk h.symm
      simp only [sumTo, upd_ne pm k v hne]
      have := ih hk'
      omega

theorem sumTo_le {pm : Nat → Payment} {f g : Payment → Nat} {n : Nat}
    (h : ∀ i, g (pm i) ≤ f (pm i)) : sumTo pm g n ≤ sumTo pm f n := by
  induction n with
  | zero => exact Nat.le_refl _
  | succ n ih => exact Nat.add_le_add ih (h (n + 1))

theorem sumTo_sub {pm : Nat → Payment} {f g : Payment → Nat} {n : Nat}
    (h : ∀ i, g (pm i) ≤ f (pm i)) :
    sumTo pm (fun p => f p - g p) n = sumTo pm f n - sumTo pm g n := by
  induction n with
  | zero => rfl
  | succ n ih =>
    have hle : sumTo pm g n ≤ sumTo pm f n := sumTo_le h
    simp only [sumTo, ih]
    have := h (n + 1)
    omega

/-! ## Lemmas about the scholarship refund loop -/

theorem SameShape.refl {p : Payment} : SameShape p p :=
  ⟨rfl, rfl, rfl, rfl, rfl, rfl, rfl, Nat.le_refl _⟩

theorem SameShape.trans {p q r : Payment} (h1 : SameShape p q) (h2 : SameShape q r) :
    SameShape p r := by
  obtain ⟨a1, b1, c1, d1, e1, f1, g1, h1'⟩ := h1
  obtain ⟨a2, b2, c2, d2, e2, f2, g2, h2'⟩ := h2
  exact ⟨a2.trans a1, b2.trans b1, c2.trans c1, d2.trans d1, e2.trans e1,
    f2.trans f1, g2.trans g1, Nat.le_trans h2' h1'⟩

theorem SameShape.zero {q : Payment} (h : SameShape Payment.zero q) :
    q = Payment.zero := by
  obtain ⟨a, b, c, d, e, f, g, h'⟩ := h
  have : q.amountAfterRefund = 0 := Nat.le_antisymm h' (Nat.zero_le _)
  cases q
  simp_all [Payment.zero]

theorem scholarshipStep_shape (fees : String → FeeSchedule) (np op : Nat)
    (acc : (Nat → Payment) × Nat) (pid i : Nat) :
    SameShape (acc.1 i) ((scholarshipStep fees np op acc pid).1 i) := by
  simp only [scholarshipStep]
  split
  · split
    · by_cases hi : i = pid
      · subst hi
        simp only [upd_same]
        exact ⟨rfl, rfl, rfl, rfl, rfl, rfl, rfl, Nat.sub_le _ _⟩
      · simp only [upd_ne _ _ _ hi]
        exact SameShape.refl
    · exact SameShape.refl
  · exact SameShape.refl

theorem foldl_scholarshipStep_shape (fees : String → FeeSchedule) (np op : Nat) :
    ∀ (l : List Nat) (acc : (Nat → Payment) × Nat) (i : Nat),
      SameShape (acc.1 i) ((l.foldl (scholarshipStep fees np op) acc).1 i)
  | [], _, _ => SameShape.refl
  | pid :: l, acc, i => by
    simp only [List.foldl_cons]
    exact SameShape.trans (scholarshipStep_shape fees np op acc pid i)
      (foldl_scholarshipStep_shape fees np op l _ i)

theorem sub_upd_sum {pm : Nat → Payment} {n pid : Nat}
    (h1 : 1 ≤ pid) (h2 : pid ≤ n) {r t : Nat}
    (hr : r ≤ (pm pid).amountAfterRefund) :
    sumTo (upd pm pid
        { pm pid with amountAfterRefund := (pm pid).amountAfterRefund - r })
      (fun p => p.amountAfterRefund) n + (t + r) =
    sumTo pm (fun p => p.amountAfterRefund) n + t := by
  have h := @sumTo_upd_in pm (fun p => p.amountAfterRefund) n pid h1 h2
    { pm pid with amountAfterRefund := (pm pid).amountAfterRefund - r }
  dsimp only at h ⊢
  omega

theorem scholarshipStep_sum (fees : String → FeeSchedule) (np op : Nat)
    (acc : (Nat → Payment) × Nat) (pid : Nat) (n : Nat)
    (hpaid : ∀ i, (acc.1 i).paid = true → 1 ≤ i ∧ i ≤ n) :
    sumTo (scholarshipStep fees np op acc pid).1 (fun p => p.amountAfterRefund) n +
      (scholarshipStep fees np op acc pid).2 =
    sumTo acc.1 (fun p => p.amountAfterRefund) n + acc.2 := by
  simp only [scholarshipStep]
  split
  · next hcond =>
    split
    · obtain ⟨hp1, hp2⟩ := hpaid pid hcond.1
      exact sub_upd_sum hp1 hp2 (by split <;> omega)
    · rfl
  · rfl

theorem foldl_scholarshipStep_sum (fees : String → FeeSchedule) (np op : Nat)
    (n : Nat) :
    ∀ (l : List Nat) (acc : (Nat → Payment) × Nat),
      (∀ i, (acc.1 i).paid = true → 1 ≤ i ∧ i ≤ n) →
      sumTo (l.foldl (scholarshipStep fees np op) acc).1
          (fun p => p.amountAfterRefund) n +
        (l.foldl (scholarshipStep fees np op) acc).2 =
      sumTo acc.1 (fun p => p.amountAfterRefund) n + acc.2
  | [], _, _ => rfl
  | pid :: l, acc, hpaid => by
    simp only [List.foldl_cons]
    have hpaid' : ∀ i, ((scholarshipStep fees np op acc pid).1 i).paid = true →
        1 ≤ i ∧ i ≤ n := by
      intro i hi
      refine hpaid i ?_
      have := (scholarshipStep_shape fees np op acc pid i).2.2.2.2.2.1
      rw [← this, hi]
    rw [foldl_scholarshipStep_sum fees np op n l _ hpaid',
      scholarshipStep_sum fees np op acc pid n hpaid]

/-! ## Invariant preservation, operation by operation -/

theorem inv_init (uw : Nat) : Inv (initState uw) := by
  refine ⟨?_, ?_, rfl, ?_, ?_, ?_⟩
  · intro i _
    rfl
  · intro i
    exact Nat.le_refl _
  · intro a sem h
    exact absurd rfl h
  · intro i h1 h2
    simp only [initState] at h2
    omega
  · intro sem _
    rfl

theorem refundedAcc_init (uw : Nat) : RefundedAcc (initState uw) := rfl

theorem registerStudent_inv {s s' : State} {w : Nat} {sid : String}
    (hs : Inv s) (h : registerStudent s w sid = .ok s') : Inv s' := by
  simp only [registerStudent] at h
  split_ifs at h
  all_goals try exact Except.noConfusion h
  injection h with h
  subst h
  refine ⟨hs.outRange, hs.bounds, hs.collected, ?_, hs.sspBack, hs.sched⟩
  intro a sem hssp
  obtain ⟨q1, q2, q3, q4⟩ := hs.sspOwner a sem hssp
  refine ⟨q1, q2, q3, ?_⟩
  by_cases ha : a = w
  · subst ha
    simp [upd]
  · simpa [upd, ha] using q4

theorem setFeeSchedule_inv {s s' : State} {sem : String} {base dl now : Nat}
    (hs : Inv s) (h : setFeeSchedule s sem base dl now = .ok s') : Inv s' := by
  simp only [setFeeSchedule] at h
  split_ifs at h
  all_goals try exact Except.noConfusion h
  all_goals injection h with h
  all_goals subst h
  all_goals refine ⟨hs.outRange, hs.bounds, hs.collected, hs.sspOwner, hs.sspBack, ?_⟩
  all_goals intro sm hsm
  all_goals by_cases he : sm = sem
  · subst he
    simp [upd] at hsm
  · simpa [upd, he] using hs.sched sm (by simpa [upd, he] using hsm)
  · subst he
    simp [upd] at hsm
  · simpa [upd, he] using hs.sched sm (by simpa [upd, he] using hsm)

theorem setUniversityWallet_inv {s s' : State} {w : Nat}
    (hs : Inv s) (h : setUniversityWallet s w = .ok s') : Inv s' := by
  simp only [setUniversityWallet] at h
  split_ifs at h
  all_goals try exact Except.noConfusion h
  injection h with h
  subst h
  exact ⟨hs.outRange, hs.bounds, hs.collected, hs.sspOwner, hs.sspBack, hs.sched⟩

theorem withdrawToUniversity_inv {s s' : State} {amt : Nat} {tok : Bool}
    (hs : Inv s) (h : withdrawToUniversity s amt tok = .ok s') : Inv s' := by
  simp only [withdrawToUniversity] at h
  split_ifs at h
  all_goals try exact Except.noConfusion h
  all_goals injection h with h
  all_goals subst h
  all_goals exact ⟨hs.outRange, hs.bounds, hs.collected, hs.sspOwner, hs.sspBack, hs.sched⟩

theorem payTuition_inv {s s' : State} {a : Nat} {sem : String} {value now : Nat}
    (hs : Inv s) (h : payTuition s a sem value now = .ok s') : Inv s' := by
  simp only [payTuition] at h
  split_ifs at h with h1 h2 h3 h4
  injection h with h
  subst h
  have hreg : (s.students a).isRegistered = true := h1
  have hssp0 : s.studentSemesterPayment a sem = 0 := by omega
  constructor
  · intro i hi
    dsimp only at hi ⊢
    rw [upd_ne _ _ _ (show i ≠ s.paymentCounter + 1 by omega)]
    exact hs.outRange i (by omega)
  · intro i
    dsimp only
    by_cases hi : i = s.paymentCounter + 1
    · subst hi
      rw [upd_same]
    · rw [upd_ne _ _ _ hi]
      exact hs.bounds i
  · have hc : s.totalCollected = sumTo s.payments (fun p => p.amount) s.paymentCounter :=
      hs.collected
    show s.totalCollected + value = collectedSum _
    simp only [collectedSum, sumTo, sumTo_upd_high (Nat.lt_succ_self s.paymentCounter),
      upd_same]
    omega
  · intro b sm hb
    dsimp only at hb ⊢
    by_cases hba : b = a
    · subst hba
      rw [upd_same] at hb ⊢
      by_cases hsm : sm = sem
      · subst hsm
        rw [upd_same] at hb ⊢
        exact ⟨Nat.le_refl _, by rw [upd_same], by rw [upd_same], hreg⟩
      · rw [upd_ne _ _ _ hsm] at hb ⊢
        obtain ⟨q1, q2, q3, q4⟩ := hs.sspOwner b sm hb
        exact ⟨by omega, by rw [upd_ne _ _ _ (show _ ≠ _ by omega)]; exact q2,
          by rw [upd_ne _ _ _ (show _ ≠ _ by omega)]; exact q3, q4⟩
    · rw [upd_ne _ _ _ hba] at hb ⊢
      obtain ⟨q1, q2, q3, q4⟩ := hs.sspOwner b sm hb
      exact ⟨by omega, by rw [upd_ne _ _ _ (show _ ≠ _ by omega)]; exact q2,
        by rw [upd_ne _ _ _ (show _ ≠ _ by omega)]; exact q3, q4⟩
  · intro i hi1 hi2
    dsimp only at hi2 ⊢
    by_cases hi : i = s.paymentCounter + 1
    · subst hi
      rw [upd_same]
      exact ⟨rfl, by rw [upd_same, upd_same]⟩
    · rw [upd_ne _ _ _ hi]
      obtain ⟨p1, p2⟩ := hs.sspBack i hi1 (by omega)
      refine ⟨p1, ?_⟩
      by_cases hsa : (s.payments i).student = a
      · rw [hsa, upd_same]
        by_cases hse : (s.payments i).semester = sem
        · rw [hse] at p2
          rw [hsa] at p2
          omega
        · rw [upd_ne _ _ _ hse]
          rw [hsa] at p2
          exact p2
      · rw [upd_ne _ _ _ hsa]
        exact p2
  · intro sm hsm
    exact hs.sched sm hsm

theorem restore_mk_inv {s : State} {a : Nat} {sem : String} {amount ts aar : Nat}
    (hs : Inv s) (hreg : (s.students a).isRegistered = true)
    (hssp0 : s.studentSemesterPayment a sem = 0) (haar : aar ≤ amount) :
    Inv { s with
      paymentCounter := s.paymentCounter + 1
      payments := upd s.payments (s.paymentCounter + 1)
        { student := a, studentId := (s.students a).studentId, semester := sem
          amount := amount, amountAfterRefund := aar, timestamp := ts
          paid := true, refunded := false }
      studentSemesterPayment := upd s.studentSemesterPayment a
        (upd (s.studentSemesterPayment a) sem (s.paymentCounter + 1))
      studentPaymentIds := upd s.studentPaymentIds a
        (s.studentPaymentIds a ++ [s.paymentCounter + 1])
      totalCollected := s.totalCollected + amount } := by
  constructor
  · intro i hi
    dsimp only at hi ⊢
    rw [upd_ne _ _ _ (show i ≠ s.paymentCounter + 1 by omega)]
    exact hs.outRange i (by omega)
  · intro i
    dsimp only
    by_cases hi : i = s.paymentCounter + 1
    · subst hi
      rw [upd_same]
      exact haar
    · rw [upd_ne _ _ _ hi]
      exact hs.bounds i
  · have hc : s.totalCollected = sumTo s.payments (fun p => p.amount) s.paymentCounter :=
      hs.collected
    show s.totalCollected + amount = collectedSum _
    simp only [collectedSum, sumTo, sumTo_upd_high (Nat.lt_succ_self s.paymentCounter),
      upd_same]
    omega
  · intro b sm hb
    dsimp only at hb ⊢
    by_cases hba : b = a
    · subst hba
      rw [upd_same] at hb ⊢
      by_cases hsm : sm = sem
      · subst hsm
        rw [upd_same] at hb ⊢
        exact ⟨Nat.le_refl _, by rw [upd_same], by rw [upd_same], hreg⟩
      · rw [upd_ne _ _ _ hsm] at hb ⊢
        obtain ⟨q1, q2, q3, q4⟩ := hs.sspOwner b sm hb
        exact ⟨by omega, by rw [upd_ne _ _ _ (show _ ≠ _ by omega)]; exact q2,
          by rw [upd_ne _ _ _ (show _ ≠ _ by omega)]; exact q3, q4⟩
    · rw [upd_ne _ _ _ hba] at hb ⊢
      obtain ⟨q1, q2, q3, q4⟩ := hs.sspOwner b sm hb
      exact ⟨by omega, by rw [upd_ne _ _ _ (show _ ≠ _ by omega)]; exact q2,
        by rw [upd_ne _ _ _ (show _ ≠ _ by omega)]; exact q3, q4⟩
  · intro i hi1 hi2
    dsimp only at hi2 ⊢
    by_cases hi : i = s.paymentCounter + 1
    · subst hi
      rw [upd_same]
      exact ⟨rfl, by rw [upd_same, upd_same]⟩
    · rw [upd_ne _ _ _ hi]
      obtain ⟨p1, p2⟩ := hs.sspBack i hi1 (by omega)
      refine ⟨p1, ?_⟩
      by_cases hsa : (s.payments i).student = a
      · rw [hsa, upd_same]
        by_cases hse : (s.payments i).semester = sem
        · rw [hse] at p2
          rw [hsa] at p2
          omega
        · rw [upd_ne _ _ _ hse]
          rw [hsa] at p2
          exact p2
      · rw [upd_ne _ _ _ hsa]
        exact p2
  · intro sm hsm
    exact hs.sched sm hsm

theorem restorePayment_inv {s s' : State} {a : Nat} {sem : String} {amount ts : Nat}
    (hs : Inv s) (h : restorePayment s a sem amount ts = .ok s') : Inv s' := by
  simp only [restorePayment] at h
  split_ifs at h with h1 h2 h3
  · injection h with h
    subst h
    exact restore_mk_inv hs h1 (by omega) (by omega)
  · injection h with h
    subst h
    exact restore_mk_inv hs h1 (by omega) (Nat.le_refl _)

theorem processRefund_inv {s s' : State} {pid : Nat} {tok : Bool}
    (hs : Inv s) (h : processRefund s pid tok = .ok s') : Inv s' := by
  simp only [processRefund] at h
  split_ifs at h with h1 h2 h3 h4 h5
  injection h with h
  subst h
  have hpaid : (s.payments pid).paid = true := h1
  have hpr : 1 ≤ pid ∧ pid ≤ s.paymentCounter := by
    by_contra hc
    have : s.payments pid = Payment.zero := hs.outRange pid (by omega)
    rw [this] at hpaid
    exact Bool.noConfusion hpaid
  constructor
  · intro i hi
    dsimp only at hi ⊢
    rw [upd_ne _ _ _ (show i ≠ pid by omega)]
    exact hs.outRange i hi
  · intro i
    dsimp only
    by_cases hi : i = pid
    · subst hi
      rw [upd_same]
      exact Nat.zero_le _
    · rw [upd_ne _ _ _ hi]
      exact hs.bounds i
  · have hc : s.totalCollected = sumTo s.payments (fun p => p.amount) s.paymentCounter :=
      hs.collected
    show s.totalCollected = collectedSum _
    simp only [collectedSum]
    refine hc.trans (sumTo_eqOn fun i hi1 hi2 => ?_).symm
    by_cases hip : i = pid
    · subst hip
      rw [upd_same]
    · rw [upd_ne _ _ _ hip]
  · intro b sm hb
    dsimp only at hb ⊢
    obtain ⟨q1, q2, q3, q4⟩ := hs.sspOwner b sm hb
    by_cases hq : s.studentSemesterPayment b sm = pid
    · rw [hq] at q1 q2 q3
      rw [hq, upd_same]
      exact ⟨q1, q2, q3, q4⟩
    · rw [upd_ne _ _ _ hq]
      exact ⟨q1, q2, q3, q4⟩
  · intro i hi1 hi2
    dsimp only at hi2 ⊢
    obtain ⟨p1, p2⟩ := hs.sspBack i hi1 hi2
    by_cases hip : i = pid
    · subst hip
      rw [upd_same]
      exact ⟨p1, p2⟩
    · rw [upd_ne _ _ _ hip]
      exact ⟨p1, p2⟩
  · intro sm hsm
    exact hs.sched sm hsm

theorem scholarship_like_inv {s : State} {a percent : Nat} {pm : Nat → Payment}
    {tR bal : Nat} (hs : Inv s)
    (hshape : ∀ i, SameShape (s.payments i) (pm i)) :
    Inv { s with
      students := upd s.students a { s.students a with scholarshipPercent := percent }
      payments := pm
      totalRefunded := tR
      balance := bal } := by
  constructor
  · intro i hi
    dsimp only at hi ⊢
    have h := hshape i
    rw [hs.outRange i hi] at h
    exact h.zero
  · intro i
    dsimp only
    have h := hshape i
    have h4 := h.2.2.2.1
    have h8 := h.2.2.2.2.2.2.2
    have hb := hs.bounds i
    omega
  · have hc : s.totalCollected = sumTo s.payments (fun p => p.amount) s.paymentCounter :=
      hs.collected
    show s.totalCollected = collectedSum _
    simp only [collectedSum]
    exact hc.trans (sumTo_eqOn fun i _ _ => (hshape i).2.2.2.1).symm
  · intro b sm hb
    dsimp only at hb ⊢
    obtain ⟨q1, q2, q3, q4⟩ := hs.sspOwner b sm hb
    have h := hshape (s.studentSemesterPayment b sm)
    refine ⟨q1, by rw [h.1]; exact q2, by rw [h.2.2.1]; exact q3, ?_⟩
    by_cases hba : b = a
    · subst hba
      rw [upd_same]
      exact q4
    · rw [upd_ne _ _ _ hba]
      exact q4
  · intro i hi1 hi2
    dsimp only at hi2 ⊢
    obtain ⟨p1, p2⟩ := hs.sspBack i hi1 hi2
    have h := hshape i
    refine ⟨by rw [h.2.2.2.2.2.1]; exact p1, ?_⟩
    rw [h.1, h.2.2.1]
    exact p2
  · intro sm hsm
    exact hs.sched sm hsm

theorem applyScholarship_inv {s s' : State} {a percent : Nat} {tok : Bool}
    (hs : Inv s) (h : applyScholarship s a percent tok = .ok s') : Inv s' := by
  simp only [applyScholarship] at h
  split_ifs at h
  all_goals injection h with h
  all_goals subst h
  · exact scholarship_like_inv hs
      (fun i => foldl_scholarshipStep_shape _ _ _ _ (s.payments, 0) i)
  · exact scholarship_like_inv hs
      (fun i => foldl_scholarshipStep_shape _ _ _ _ (s.payments, 0) i)
  · exact scholarship_like_inv hs (fun i => SameShape.refl)

theorem paid_in_range {s : State} (hs : Inv s) :
    ∀ i, (s.payments i).paid = true → 1 ≤ i ∧ i ≤ s.paymentCounter := by
  intro i hp
  by_contra hc
  have hz : s.payments i = Payment.zero := hs.outRange i (by omega)
  rw [hz] at hp
  exact Bool.noConfusion hp

/-! ## Transition-level invariants -/

theorem exec_inv {s s' : State} {o : Op} (hs : Inv s) (h : exec s o = .ok s') :
    Inv s' := by
  cases o with
  | registerStudent w sid => exact registerStudent_inv hs h
  | applyScholarship a p tok => exact applyScholarship_inv hs h
  | setFeeSchedule sem b d n => exact setFeeSchedule_inv hs h
  | payTuition a sem v n => exact payTuition_inv hs h
  | processRefund pid tok => exact processRefund_inv hs h
  | restorePayment a sem amt ts => exact restorePayment_inv hs h
  | withdrawToUniversity amt tok => exact withdrawToUniversity_inv hs h
  | setUniversityWallet w => exact setUniversityWallet_inv hs h

theorem step_inv {s : State} {o : Op} (hs : Inv s) : Inv (step s o) := by
  unfold step
  cases he : exec s o with
  | ok s' => exact exec_inv hs he
  | error e => exact hs

theorem run_inv {s : State} (hs : Inv s) : ∀ ops : List Op, Inv (run s ops)
  | [] => hs
  | o :: ops => run_inv (step_inv hs) ops

/-! ## Preservation of the refunded-total equation by non-restore operations -/

theorem payTuition_acc {s s' : State} {a : Nat} {sem : String} {value now : Nat}
    (hacc : RefundedAcc s) (h : payTuition s a sem value now = .ok s') :
    RefundedAcc s' := by
  simp only [payTuition] at h
  split_ifs at h
  injection h with h
  subst h
  show s.totalRefunded + remainingSum _ = collectedSum _
  simp only [remainingSum, collectedSum, sumTo,
    sumTo_upd_high (Nat.lt_succ_self s.paymentCounter), upd_same]
  have : s.totalRefunded + sumTo s.payments (fun p => p.amountAfterRefund)
      s.paymentCounter = sumTo s.payments (fun p => p.amount) s.paymentCounter := hacc
  omega

theorem processRefund_acc {s s' : State} {pid : Nat} {tok : Bool}
    (hs : Inv s) (hacc : RefundedAcc s) (h : processRefund s pid tok = .ok s') :
    RefundedAcc s' := by
  simp only [processRefund] at h
  split_ifs at h with h1 h2 h3 h4 h5
  injection h with h
  subst h
  obtain ⟨hp1, hp2⟩ := paid_in_range hs pid h1
  have hup := @sumTo_upd_in s.payments (fun p => p.amountAfterRefund)
    s.paymentCounter pid hp1 hp2
    { s.payments pid with refunded := true, amountAfterRefund := 0 }
  have hcl := @sumTo_eqOn (upd s.payments pid
      { s.payments pid with refunded := true, amountAfterRefund := 0 })
    s.payments (fun p => p.amount) s.paymentCounter
    (fun i _ _ => by
      by_cases hip : i = pid
      · subst hip
        rw [upd_same]
      · rw [upd_ne _ _ _ hip])
  have hacc' : s.totalRefunded + sumTo s.payments (fun p => p.amountAfterRefund)
      s.paymentCounter = sumTo s.payments (fun p => p.amount) s.paymentCounter := hacc
  show s.totalRefunded + (s.payments pid).amountAfterRefund + remainingSum _ =
    collectedSum _
  simp only [remainingSum, collectedSum]
  dsimp only at hup ⊢
  rw [hcl]
  omega

theorem applyScholarship_acc {s s' : State} {a percent : Nat} {tok : Bool}
    (hs : Inv s) (hacc : RefundedAcc s)
    (h : applyScholarship s a percent tok = .ok s') : RefundedAcc s' := by
  have hpaid : ∀ i, (((s.payments, 0) : (Nat → Payment) × Nat).1 i).paid = true →
      1 ≤ i ∧ i ≤ s.paymentCounter := fun i hp => paid_in_range hs i hp
  have hsum := foldl_scholarshipStep_sum s.feeSchedules percent
    (s.students a).scholarshipPercent s.paymentCounter
    (s.studentPaymentIds a) (s.payments, 0) hpaid
  have hshape := fun i => foldl_scholarshipStep_shape s.feeSchedules percent
    (s.students a).scholarshipPercent (s.studentPaymentIds a) (s.payments, 0) i
  have hcl := @sumTo_eqOn (((s.studentPaymentIds a).foldl
      (scholarshipStep s.feeSchedules percent (s.students a).scholarshipPercent)
      (s.payments, 0)).1)
    s.payments (fun p => p.amount) s.paymentCounter
    (fun i _ _ => (hshape i).2.2.2.1)
  simp only [applyScholarship] at h
  split_ifs at h with h1 h2 h3 h4 h5 h6
  all_goals injection h with h
  all_goals subst h
  · have hacc' : s.totalRefunded + sumTo s.payments (fun p => p.amountAfterRefund)
        s.paymentCounter = sumTo s.payments (fun p => p.amount) s.paymentCounter := hacc
    show s.totalRefunded + _ + remainingSum _ = collectedSum _
    simp only [remainingSum, collectedSum]
    dsimp only at hsum ⊢
    rw [hcl]
    omega
  · have hacc' : s.totalRefunded + sumTo s.payments (fun p => p.amountAfterRefund)
        s.paymentCounter = sumTo s.payments (fun p => p.amount) s.paymentCounter := hacc
    show s.totalRefunded + remainingSum _ = collectedSum _
    simp only [remainingSum, collectedSum]
    dsimp only at hsum ⊢
    rw [hcl]
    omega
  · exact hacc

theorem exec_acc {s s' : State} {o : Op} (hs : Inv s) (hacc : RefundedAcc s)
    (ho : o.isRestore = false) (h : exec s o = .ok s') : RefundedAcc s' := by
  cases o with
  | registerStudent w sid =>
    simp only [exec, registerStudent] at h
    split_ifs at h
    injection h with h
    subst h
    exact hacc
  | applyScholarship a p tok => exact applyScholarship_acc hs hacc h
  | setFeeSchedule sem b d n =>
    simp only [exec, setFeeSchedule] at h
    split_ifs at h
    all_goals injection h with h
    all_goals subst h
    all_goals exact hacc
  | payTuition a sem v n => exact payTuition_acc hacc h
  | processRefund pid tok => exact processRefund_acc hs hacc h
  | restorePayment a sem amt ts => exact Bool.noConfusion ho
  | withdrawToUniversity amt tok =>
    simp only [exec, withdrawToUniversity] at h
    split_ifs at h
    all_goals injection h with h
    all_goals subst h
    all_goals exact hacc
  | setUniversityWallet w =>
    simp only [exec, setUniversityWallet] at h
    split_ifs at h
    injection h with h
    subst h
    exact hacc

theorem step_acc {s : State} {o : Op} (hs : Inv s) (hacc : RefundedAcc s)
    (ho : o.isRestore = false) : RefundedAcc (step s o) := by
  unfold step
  cases he : exec s o with
  | ok s' => exact exec_acc hs hacc ho he
  | error e => exact hacc

theorem run_acc {s : State} (hs : Inv s) (hacc : RefundedAcc s) :
    ∀ ops : List Op, (∀ o ∈ ops, o.isRestore = false) → RefundedAcc (run s ops)
  | [], _ => hacc
  | o :: ops, hno =>
    run_acc (step_inv hs) (step_acc hs hacc (hno o (List.mem_cons_self o ops)))
      ops (fun o' ho' => hno o' (List.mem_cons_of_mem o ho'))

/-! ## Helper characterisations of error paths -/

theorem calculateFee_formula (s : State) (a : Nat) (sem : String) :
    calculateFee s a sem = (s.feeSchedules sem).baseAmount -
      (s.feeSchedules sem).baseAmount * (s.students a).scholarshipPercent / 100 := by
  unfold calculateFee
  by_cases hp : (s.students a).scholarshipPercent = 0
  · rw [if_pos hp, hp]
    simp
  · rw [if_neg hp]

theorem payTuition_already {s : State} {a : Nat} {sem : String} (v now : Nat)
    (hreg : (s.students a).isRegistered = true)
    (hssp : s.studentSemesterPayment a sem ≠ 0) :
    payTuition s a sem v now = .error
      (if (s.feeSchedules sem).isActive = true then Err.alreadyPaid
       else Err.inactiveSemester) := by
  unfold payTuition
  rw [if_neg (by simp [hreg])]
  by_cases hact : (s.feeSchedules sem).isActive = true
  · rw [if_neg (by simp [hact]), if_pos hssp, if_pos hact]
  · rw [if_pos hact, if_neg hact]

theorem restorePayment_already {s : State} {a : Nat} {sem : String} (amt ts : Nat)
    (hreg : (s.students a).isRegistered = true)
    (hssp : s.studentSemesterPayment a sem ≠ 0) :
    restorePayment s a sem amt ts = .error .paymentAlreadyExists := by
  unfold restorePayment
  rw [if_neg (by simp [hreg]), if_pos hssp]

/-! ## Success characterisations of the operations -/

theorem registerStudent_ok {s : State} {w : Nat} {sid : String}
    (hw : w ≠ 0) (hnr : ¬ (s.students w).isRegistered = true)
    (hid : s.studentIdToAddress sid = 0) :
    registerStudent s w sid = .ok { s with
      students := upd s.students w
        { studentId := sid, walletAddress := w, scholarshipPercent := 0, isRegistered := true }
      studentIdToAddress := upd s.studentIdToAddress sid w
      registeredStudents := s.registeredStudents ++ [w] } := by
  simp only [registerStudent]
  rw [if_neg hw, if_neg hnr, if_neg (by omega)]

theorem setFeeSchedule_ok {s : State} {sem : String} {base dl now : Nat}
    (hb : base ≠ 0) (hd : now < dl) :
    setFeeSchedule s sem base dl now = .ok { s with
      activeSemesters :=
        if ¬ (s.feeSchedules sem).isActive = true then s.activeSemesters ++ [sem]
        else s.activeSemesters
      feeSchedules := upd s.feeSchedules sem
        { semester := sem, baseAmount := base, deadline := dl, isActive := true } } := by
  simp only [setFeeSchedule]
  rw [if_neg hb, if_neg (not_not_intro hd)]

theorem payTuition_ok {s : State} {a : Nat} {sem : String} {v now : Nat}
    (hreg : (s.students a).isRegistered = true)
    (hact : (s.feeSchedules sem).isActive = true)
    (hssp : s.studentSemesterPayment a sem = 0)
    (hval : ¬ v < calculateFee s a sem) :
    payTuition s a sem v now = .ok { s with
      paymentCounter := s.paymentCounter + 1
      payments := upd s.payments (s.paymentCounter + 1)
        { student := a, studentId := (s.students a).studentId, semester := sem
          amount := v, amountAfterRefund := v, timestamp := now
          paid := true, refunded := false }
      studentSemesterPayment := upd s.studentSemesterPayment a
        (upd (s.studentSemesterPayment a) sem (s.paymentCounter + 1))
      studentPaymentIds := upd s.studentPaymentIds a
        (s.studentPaymentIds a ++ [s.paymentCounter + 1])
      totalCollected := s.totalCollected + v
      balance := s.balance + v } := by
  simp only [payTuition]
  rw [if_neg (not_not_intro hreg), if_neg (not_not_intro hact), if_neg (by omega),
    if_neg hval]

theorem restorePayment_ok {s : State} {a : Nat} {sem : String} {amount ts : Nat}
    (hreg : (s.students a).isRegistered = true)
    (hssp : s.studentSemesterPayment a sem = 0) :
    restorePayment s a sem amount ts = .ok { s with
      paymentCounter := s.paymentCounter + 1
      payments := upd s.payments (s.paymentCounter + 1)
        { student := a, studentId := (s.students a).studentId, semester := sem
          amount := amount
          amountAfterRefund :=
            if (s.feeSchedules sem).baseAmount -
                (s.feeSchedules sem).baseAmount * (s.students a).scholarshipPercent / 100
                < amount
            then (s.feeSchedules sem).baseAmount -
                (s.feeSchedules sem).baseAmount * (s.students a).scholarshipPercent / 100
            else amount
          timestamp := ts, paid := true, refunded := false }
      studentSemesterPayment := upd s.studentSemesterPayment a
        (upd (s.studentSemesterPayment a) sem (s.paymentCounter + 1))
      studentPaymentIds := upd s.studentPaymentIds a
        (s.studentPaymentIds a ++ [s.paymentCounter + 1])
      totalCollected := s.totalCollected + amount } := by
  simp only [restorePayment]
  rw [if_neg (not_not_intro hreg), if_neg (by omega)]

theorem applyScholarship_commit {s : State} {a p : Nat} {pm : Nat → Payment} {t : Nat}
    (hreg : (s.students a).isRegistered = true) (hp : ¬ 100 < p)
    (hold : (s.students a).scholarshipPercent < p)
    (hloop : (s.studentPaymentIds a).foldl
      (scholarshipStep s.feeSchedules p (s.students a).scholarshipPercent)
      (s.payments, 0) = (pm, t))
    (hpos : 0 < t) (hbal : ¬ s.balance < t) :
    applyScholarship s a p true = .ok { s with
      students := upd s.students a { s.students a with scholarshipPercent := p }
      payments := pm
      totalRefunded := s.totalRefunded + t
      balance := s.balance - t } := by
  simp only [applyScholarship]
  rw [if_neg (not_not_intro hreg), if_neg hp, if_pos hold, hloop]
  dsimp only
  rw [if_pos hpos, if_neg hbal, if_pos trivial]

theorem applyScholarship_noRefund {s : State} {a p : Nat} {tok : Bool}
    {pm : Nat → Payment}
    (hreg : (s.students a).isRegistered = true) (hp : ¬ 100 < p)
    (hold : (s.students a).scholarshipPercent < p)
    (hloop : (s.studentPaymentIds a).foldl
      (scholarshipStep s.feeSchedules p (s.students a).scholarshipPercent)
      (s.payments, 0) = (pm, 0)) :
    applyScholarship s a p tok = .ok { s with
      students := upd s.students a { s.students a with scholarshipPercent := p }
      payments := pm } := by
  simp only [applyScholarship]
  rw [if_neg (not_not_intro hreg), if_neg hp, if_pos hold, hloop]
  dsimp only
  rw [if_neg (by omega)]

theorem applyScholarship_noIncrease {s : State} {a p : Nat} {tok : Bool}
    (hreg : (s.students a).isRegistered = true) (hp : ¬ 100 < p)
    (hold : ¬ (s.students a).scholarshipPercent < p) :
    applyScholarship s a p tok = .ok { s with
      students := upd s.students a { s.students a with scholarshipPercent := p } } := by
  simp only [applyScholarship]
  rw [if_neg (not_not_intro hreg), if_neg hp, if_neg hold]

theorem scholarshipStep_refund (fees : String → FeeSchedule) (np op : Nat)
    (acc : (Nat → Payment) × Nat) (pid : Nat)
    (h1 : (acc.1 pid).paid = true) (h2 : ¬ (acc.1 pid).refunded = true)
    (h3 : 0 < (acc.1 pid).amountAfterRefund)
    (h4 : (fees (acc.1 pid).semester).baseAmount -
        (fees (acc.1 pid).semester).baseAmount * np / 100 <
      (fees (acc.1 pid).semester).baseAmount -
        (fees (acc.1 pid).semester).baseAmount * op / 100) :
    scholarshipStep fees np op acc pid =
      (upd acc.1 pid { acc.1 pid with
        amountAfterRefund := (acc.1 pid).amountAfterRefund -
          (if (acc.1 pid).amountAfterRefund <
              ((fees (acc.1 pid).semester).baseAmount -
                (fees (acc.1 pid).semester).baseAmount * op / 100) -
              ((fees (acc.1 pid).semester).baseAmount -
                (fees (acc.1 pid).semester).baseAmount * np / 100)
            then (acc.1 pid).amountAfterRefund
            else ((fees (acc.1 pid).semester).baseAmount -
                (fees (acc.1 pid).semester).baseAmount * op / 100) -
              ((fees (acc.1 pid).semester).baseAmount -
                (fees (acc.1 pid).semester).baseAmount * np / 100)) },
      acc.2 + (if (acc.1 pid).amountAfterRefund <
              ((fees (acc.1 pid).semester).baseAmount -
                (fees (acc.1 pid).semester).baseAmount * op / 100) -
              ((fees (acc.1 pid).semester).baseAmount -
                (fees (acc.1 pid).semester).baseAmount * np / 100)
            then (acc.1 pid).amountAfterRefund
            else ((fees (acc.1 pid).semester).baseAmount -
                (fees (acc.1 pid).semester).baseAmount * op / 100) -
              ((fees (acc.1 pid).semester).baseAmount -
                (fees (acc.1 pid).semester).baseAmount * np / 100))) := by
  simp only [scholarshipStep]
  rw [if_pos ⟨h1, h2, h3⟩, if_pos h4]

theorem step_ok {s s' : State} {o : Op} (h : exec s o = .ok s') : step s o = s' := by
  unfold step
  rw [h]

theorem replayFee_ok {rn : Nat} {s s' : State} {f : SnapFee}
    (h : setFeeSchedule s f.semester f.amount (adjustDeadline rn f.deadline) rn =
      .ok s') : replayFee rn s f = s' := by
  unfold replayFee
  rw [h]

theorem replayStudent_ok {s s' : State} {st : SnapStudent}
    (h : registerStudent s st.wallet st.studentId = .ok s') :
    replayStudent s st = s' := by
  unfold replayStudent
  rw [h]

theorem replayScholarship_ok {s s' : State} {x : SnapScholarship}
    (h : applyScholarship s x.wallet x.percent true = .ok s') :
    replayScholarship s x = s' := by
  unfold replayScholarship
  rw [h]

theorem replayPayment_ok {s s' : State} {x : SnapPayment}
    (h : restorePayment s x.wallet x.semester x.amount x.timestamp = .ok s') :
    replayPayment s x = s' := by
  unfold replayPayment
  rw [h]

theorem scholarshipStep_noDelta (fees : String → FeeSchedule) (np op : Nat)
    (acc : (Nat → Payment) × Nat) (pid : Nat)
    (h : ¬ ((fees (acc.1 pid).semester).baseAmount -
        (fees (acc.1 pid).semester).baseAmount * np / 100 <
      (fees (acc.1 pid).semester).baseAmount -
        (fees (acc.1 pid).semester).baseAmount * op / 100)) :
    scholarshipStep fees np op acc pid = acc := by
  simp only [scholarshipStep]
  split_ifs with g1 g2
  all_goals try rfl
  all_goals exact absurd (by assumption) h

theorem paymentEqIgnTs_refl (p : Payment) : PaymentEqIgnTs p p :=
  ⟨rfl, rfl, rfl, rfl, rfl, rfl, rfl⟩

theorem restorePayment_ok_le {s : State} {a : Nat} {sem : String} {amount ts : Nat}
    (hreg : (s.students a).isRegistered = true)
    (hssp : s.studentSemesterPayment a sem = 0)
    (hle : ¬ ((s.feeSchedules sem).baseAmount -
      (s.feeSchedules sem).baseAmount * (s.students a).scholarshipPercent / 100
      < amount)) :
    restorePayment s a sem amount ts = .ok { s with
      paymentCounter := s.paymentCounter + 1
      payments := upd s.payments (s.paymentCounter + 1)
        { student := a, studentId := (s.students a).studentId, semester := sem
          amount := amount, amountAfterRefund := amount
          timestamp := ts, paid := true, refunded := false }
      studentSemesterPayment := upd s.studentSemesterPayment a
        (upd (s.studentSemesterPayment a) sem (s.paymentCounter + 1))
      studentPaymentIds := upd s.studentPaymentIds a
        (s.studentPaymentIds a ++ [s.paymentCounter + 1])
      totalCollected := s.totalCollected + amount } := by
  rw [restorePayment_ok hreg hssp, if_neg hle]

theorem restorePayment_ok_gt {s : State} {a : Nat} {sem : String} {amount ts : Nat}
    (hreg : (s.students a).isRegistered = true)
    (hssp : s.studentSemesterPayment a sem = 0)
    (hgt : (s.feeSchedules sem).baseAmount -
      (s.feeSchedules sem).baseAmount * (s.students a).scholarshipPercent / 100
      < amount) :
    restorePayment s a sem amount ts = .ok { s with
      paymentCounter := s.paymentCounter + 1
      payments := upd s.payments (s.paymentCounter + 1)
        { student := a, studentId := (s.students a).studentId, semester := sem
          amount := amount
          amountAfterRefund := (s.feeSchedules sem).baseAmount -
            (s.feeSchedules sem).baseAmount * (s.students a).scholarshipPercent / 100
          timestamp := ts, paid := true, refunded := false }
      studentSemesterPayment := upd s.studentSemesterPayment a
        (upd (s.studentSemesterPayment a) sem (s.paymentCounter + 1))
      studentPaymentIds := upd s.studentPaymentIds a
        (s.studentPaymentIds a ++ [s.paymentCounter + 1])
      totalCollected := s.totalCollected + amount } := by
  rw [restorePayment_ok hreg hssp, if_pos hgt]

/-! ## Claims -/

/-- Claim C1, counterexample: the totals invariant is NOT maintained by every
operation sequence.  After registering a student and replaying a payment of
100 through `restorePayment` for a semester with no fee schedule, the
payment's remaining amount is clamped to 0, so the sum of
(gross - remaining) is 100 while `totalRefunded` is still 0. -/
theorem c1_counterexample :
    ¬ TotalsOK (run (initState 1)
      [.registerStudent 5 "S1", .restorePayment 5 "X" 100 0]) := by
  intro h
  exact absurd h.1 (by decide)

/-- Claim C1, amended: `totalCollected` equals the sum of gross amounts after
every operation sequence, and `totalRefunded` equals the sum of
(gross - remaining) after every sequence that contains no `restorePayment`
(the restore path credits `totalCollected` but records a clamped remaining
amount without crediting `totalRefunded`). -/
theorem c1_amended_totals (uw : Nat) (ops : List Op) :
    (run (initState uw) ops).totalCollected = collectedSum (run (initState uw) ops) ∧
    ((∀ o ∈ ops, o.isRestore = false) →
      (run (initState uw) ops).totalRefunded =
        refundedSum (run (initState uw) ops)) := by
  have hinv := run_inv (inv_init uw) ops
  refine ⟨hinv.collected, fun hno => ?_⟩
  have hacc := run_acc (inv_init uw) (refundedAcc_init uw) ops hno
  have hacc' : (run (initState uw) ops).totalRefunded +
      sumTo (run (initState uw) ops).payments (fun p => p.amountAfterRefund)
        (run (initState uw) ops).paymentCounter =
      sumTo (run (initState uw) ops).payments (fun p => p.amount)
        (run (initState uw) ops).paymentCounter := hacc
  have hsub := @sumTo_sub (run (initState uw) ops).payments
    (fun p => p.amount) (fun p => p.amountAfterRefund)
    (run (initState uw) ops).paymentCounter (fun i => hinv.bounds i)
  show _ = refundedSum _
  simp only [refundedSum]
  rw [hsub]
  omega

theorem c1_amended_totals_witness :
    (run (initState 1) [.registerStudent 5 "S1", .setFeeSchedule "A" 100 10 0,
        .payTuition 5 "A" 100 1, .applyScholarship 5 50 true]).totalRefunded =
      refundedSum (run (initState 1) [.registerStudent 5 "S1",
        .setFeeSchedule "A" 100 10 0, .payTuition 5 "A" 100 1,
        .applyScholarship 5 50 true]) ∧
    (run (initState 1) [.registerStudent 5 "S1", .setFeeSchedule "A" 100 10 0,
        .payTuition 5 "A" 100 1, .applyScholarship 5 50 true]).totalCollected =
      collectedSum (run (initState 1) [.registerStudent 5 "S1",
        .setFeeSchedule "A" 100 10 0, .payTuition 5 "A" 100 1,
        .applyScholarship 5 50 true]) := by
  have h := c1_amended_totals 1 [.registerStudent 5 "S1",
    .setFeeSchedule "A" 100 10 0, .payTuition 5 "A" 100 1,
    .applyScholarship 5 50 true]
  exact ⟨h.2 (by decide), h.1⟩

/-- Claim C3: when the accumulated scholarship refund is positive and either
the contract balance cannot cover it or the transfer to the student fails,
`applyScholarship` reverts as a whole: it returns an error and the
transaction semantics keep the entire pre-state, so the stored scholarship
percent, every payment record, and `totalRefunded` are unchanged. -/
theorem c3_applyScholarship_atomic (s : State) (a p : Nat) (tok : Bool)
    (hreg : (s.students a).isRegistered = true) (hp : p ≤ 100)
    (hold : (s.students a).scholarshipPercent < p)
    (hpos : 0 < scholarshipRefundTotal s a p)
    (hfail : s.balance < scholarshipRefundTotal s a p ∨ tok = false) :
    applyScholarship s a p tok = .error
      (if s.balance < scholarshipRefundTotal s a p
       then Err.insufficientContractBalance else Err.refundTransferFailed) ∧
    step s (.applyScholarship a p tok) = s ∧
    (step s (.applyScholarship a p tok)).students a = s.students a ∧
    (step s (.applyScholarship a p tok)).totalRefunded = s.totalRefunded ∧
    (step s (.applyScholarship a p tok)).payments = s.payments := by
  have herr : applyScholarship s a p tok = .error
      (if s.balance < scholarshipRefundTotal s a p
       then Err.insufficientContractBalance else Err.refundTransferFailed) := by
    simp only [scholarshipRefundTotal] at hpos hfail ⊢
    simp only [applyScholarship]
    rw [if_neg (not_not_intro hreg)]
    rw [if_neg (Nat.not_lt.mpr hp)]
    rw [if_pos hold]
    rw [if_pos hpos]
    by_cases hb : s.balance < ((s.studentPaymentIds a).foldl
        (scholarshipStep s.feeSchedules p (s.students a).scholarshipPercent)
        (s.payments, 0)).2
    · rw [if_pos hb, if_pos hb]
    · rw [if_neg hb, if_neg hb]
      rcases hfail with hf | hf
      · omega
      · rw [hf]
        rfl
  have hstep : step s (.applyScholarship a p tok) = s := by
    have hexec : exec s (.applyScholarship a p tok) = .error
        (if s.balance < scholarshipRefundTotal s a p
         then Err.insufficientContractBalance else Err.refundTransferFailed) := herr
    unfold step
    rw [hexec]
  exact ⟨herr, hstep, by rw [hstep], by rw [hstep], by rw [hstep]⟩

theorem c3_applyScholarship_atomic_witness :
    applyScholarship (run (initState 1) [.registerStudent 5 "S1",
        .setFeeSchedule "A" 100 10 0, .payTuition 5 "A" 100 1]) 5 30 false = .error
      (if (run (initState 1) [.registerStudent 5 "S1", .setFeeSchedule "A" 100 10 0,
          .payTuition 5 "A" 100 1]).balance <
          scholarshipRefundTotal (run (initState 1) [.registerStudent 5 "S1",
            .setFeeSchedule "A" 100 10 0, .payTuition 5 "A" 100 1]) 5 30
       then Err.insufficientContractBalance else Err.refundTransferFailed) ∧
    step (run (initState 1) [.registerStudent 5 "S1", .setFeeSchedule "A" 100 10 0,
        .payTuition 5 "A" 100 1]) (.applyScholarship 5 30 false) =
      run (initState 1) [.registerStudent 5 "S1", .setFeeSchedule "A" 100 10 0,
        .payTuition 5 "A" 100 1] ∧
    (step (run (initState 1) [.registerStudent 5 "S1", .setFeeSchedule "A" 100 10 0,
        .payTuition 5 "A" 100 1]) (.applyScholarship 5 30 false)).students 5 =
      (run (initState 1) [.registerStudent 5 "S1", .setFeeSchedule "A" 100 10 0,
        .payTuition 5 "A" 100 1]).students 5 ∧
    (step (run (initState 1) [.registerStudent 5 "S1", .setFeeSchedule "A" 100 10 0,
        .payTuition 5 "A" 100 1]) (.applyScholarship 5 30 false)).totalRefunded =
      (run (initState 1) [.registerStudent 5 "S1", .setFeeSchedule "A" 100 10 0,
        .payTuition 5 "A" 100 1]).totalRefunded ∧
    (step (run (initState 1) [.registerStudent 5 "S1", .setFeeSchedule "A" 100 10 0,
        .payTuition 5 "A" 100 1]) (.applyScholarship 5 30 false)).payments =
      (run (initState 1) [.registerStudent 5 "S1", .setFeeSchedule "A" 100 10 0,
        .payTuition 5 "A" 100 1]).payments :=
  c3_applyScholarship_atomic _ 5 30 false (by decide) (by decide) (by decide)
    (by decide) (Or.inr rfl)

/-- Claim C4: in every reachable state, every payment record satisfies
`0 ≤ amountAfterRefund ≤ amount`. -/
theorem c4_remaining_bounds (uw : Nat) (ops : List Op) (i : Nat) :
    0 ≤ ((run (initState uw) ops).payments i).amountAfterRefund ∧
    ((run (initState uw) ops).payments i).amountAfterRefund ≤
      ((run (initState uw) ops).payments i).amount :=
  ⟨Nat.zero_le _, (run_inv (inv_init uw) ops).bounds i⟩

/-- Claim C5, counterexample: a payment record for a (student, semester) pair
can exist (created by `restorePayment` for a semester with no active fee
schedule) while `payTuition` for that pair fails with the inactive-semester
error rather than the claimed `AlreadyPaid` error. -/
theorem c5_counterexample :
    (run (initState 1) [.registerStudent 5 "S1", .restorePayment 5 "X" 100 0]
      ).studentSemesterPayment 5 "X" ≠ 0 ∧
    execErr (run (initState 1) [.registerStudent 5 "S1",
      .restorePayment 5 "X" 100 0]) (.payTuition 5 "X" 100 1) =
      some .inactiveSemester ∧
    some Err.inactiveSemester ≠ some Err.alreadyPaid := by decide

/-- Claim C5, amended: in every reachable state at most one payment record
exists per (student, semester) pair; when a payment id is recorded for the
pair, `payTuition` fails and creates no record — with `AlreadyPaid` when the
semester has an active fee schedule, and with the inactive-semester error
otherwise (possible only for restore-created records) — and `restorePayment`
rejects a second record with the payment-already-exists error. -/
theorem c5_amended_unique_payment (uw : Nat) (ops : List Op) (a i j : Nat)
    (sem : String) (v now amt ts : Nat) :
    (1 ≤ i → i ≤ (run (initState uw) ops).paymentCounter →
     1 ≤ j → j ≤ (run (initState uw) ops).paymentCounter →
     ((run (initState uw) ops).payments i).student =
       ((run (initState uw) ops).payments j).student →
     ((run (initState uw) ops).payments i).semester =
       ((run (initState uw) ops).payments j).semester → i = j) ∧
    ((run (initState uw) ops).studentSemesterPayment a sem ≠ 0 →
      payTuition (run (initState uw) ops) a sem v now = .error
        (if ((run (initState uw) ops).feeSchedules sem).isActive = true
         then Err.alreadyPaid else Err.inactiveSemester) ∧
      restorePayment (run (initState uw) ops) a sem amt ts =
        .error .paymentAlreadyExists) := by
  have hinv := run_inv (inv_init uw) ops
  constructor
  · intro hi1 hi2 hj1 hj2 hst hse
    have pi := (hinv.sspBack i hi1 hi2).2
    have pj := (hinv.sspBack j hj1 hj2).2
    rw [hst, hse] at pi
    exact pi.symm.trans pj
  · intro hssp
    have hreg := (hinv.sspOwner a sem hssp).2.2.2
    exact ⟨payTuition_already v now hreg hssp,
      restorePayment_already amt ts hreg hssp⟩

theorem c5_amended_unique_payment_witness :
    payTuition (run (initState 1) [.registerStudent 5 "S1",
        .setFeeSchedule "A" 100 10 0, .payTuition 5 "A" 100 1]) 5 "A" 100 2 =
      .error (if ((run (initState 1) [.registerStudent 5 "S1",
          .setFeeSchedule "A" 100 10 0, .payTuition 5 "A" 100 1]
          ).feeSchedules "A").isActive = true
        then Err.alreadyPaid else Err.inactiveSemester) ∧
    restorePayment (run (initState 1) [.registerStudent 5 "S1",
        .setFeeSchedule "A" 100 10 0, .payTuition 5 "A" 100 1]) 5 "A" 77 3 =
      .error .paymentAlreadyExists ∧
    (1 : Nat) = 1 := by
  have h := c5_amended_unique_payment 1 [.registerStudent 5 "S1",
    .setFeeSchedule "A" 100 10 0, .payTuition 5 "A" 100 1] 5 1 1 "A" 100 2 77 3
  exact ⟨(h.2 (by decide)).1, (h.2 (by decide)).2,
    h.1 (by decide) (by decide) (by decide) (by decide) rfl rfl⟩

/-- Claim C7: for a registered wallet and a semester with an active fee
schedule of base `B` and scholarship percent at most 100, `calculateFee`
returns `B - B * p / 100` (floor division), and the fee is monotonically
non-increasing as the percent increases with `B` fixed. -/
theorem c7_calculateFee_formula_monotone (s1 s2 : State) (w1 w2 : Nat)
    (sem1 sem2 : String) (B p1 p2 : Nat)
    (hreg1 : (s1.students w1).isRegistered = true)
    (hact1 : (s1.feeSchedules sem1).isActive = true)
    (hB1 : (s1.feeSchedules sem1).baseAmount = B)
    (hp1 : (s1.students w1).scholarshipPercent = p1)
    (h100a : p1 ≤ 100)
    (hreg2 : (s2.students w2).isRegistered = true)
    (hact2 : (s2.feeSchedules sem2).isActive = true)
    (hB2 : (s2.feeSchedules sem2).baseAmount = B)
    (hp2 : (s2.students w2).scholarshipPercent = p2)
    (h100b : p2 ≤ 100)
    (hle : p1 ≤ p2) :
    calculateFee s1 w1 sem1 = B - B * p1 / 100 ∧
    calculateFee s2 w2 sem2 = B - B * p2 / 100 ∧
    calculateFee s2 w2 sem2 ≤ calculateFee s1 w1 sem1 := by
  have e1 := calculateFee_formula s1 w1 sem1
  rw [hB1, hp1] at e1
  have e2 := calculateFee_formula s2 w2 sem2
  rw [hB2, hp2] at e2
  refine ⟨e1, e2, ?_⟩
  rw [e1, e2]
  exact Nat.sub_le_sub_left
    (Nat.div_le_div_right (Nat.mul_le_mul_left B hle)) B

theorem c7_calculateFee_formula_monotone_witness :
    calculateFee (run (initState 1) [.registerStudent 5 "S1",
        .setFeeSchedule "A" 100 10 0, .applyScholarship 5 30 true]) 5 "A" =
      100 - 100 * 30 / 100 ∧
    calculateFee (run (initState 1) [.registerStudent 5 "S1",
        .setFeeSchedule "A" 100 10 0, .applyScholarship 5 60 true]) 5 "A" =
      100 - 100 * 60 / 100 ∧
    calculateFee (run (initState 1) [.registerStudent 5 "S1",
        .setFeeSchedule "A" 100 10 0, .applyScholarship 5 60 true]) 5 "A" ≤
      calculateFee (run (initState 1) [.registerStudent 5 "S1",
        .setFeeSchedule "A" 100 10 0, .applyScholarship 5 30 true]) 5 "A" :=
  c7_calculateFee_formula_monotone _ _ 5 5 "A" "A" 100 30 60
    (by decide) (by decide) (by decide) (by decide) (by decide)
    (by decide) (by decide) (by decide) (by decide) (by decide) (by decide)

/-- Claim C8, counterexample: `calculateFee` never fails.  In the freshly
constructed state no active fee schedule exists for "2024-1", yet
`calculateFee` returns the value 0 for any wallet instead of an
UnknownSemester error — the function is a total view with no revert path. -/
theorem c8_counterexample :
    ((initState 1).feeSchedules "2024-1").isActive = false ∧
    calculateFee (initState 1) 5 "2024-1" = 0 := ⟨rfl, rfl⟩

/-- Claim C8, amended: in every reachable state with no active fee schedule
for a semester, `calculateFee` succeeds and returns 0 (the missing
schedule's base amount is 0); the inactive-semester rejection is enforced by
`payTuition`'s `validSemester` modifier instead. -/
theorem c8_amended_calculateFee_total (uw : Nat) (ops : List Op) (a : Nat)
    (sem : String) (v now : Nat)
    (hin : ((run (initState uw) ops).feeSchedules sem).isActive = false) :
    calculateFee (run (initState uw) ops) a sem = 0 ∧
    (((run (initState uw) ops).students a).isRegistered = true →
      payTuition (run (initState uw) ops) a sem v now =
        .error .inactiveSemester) := by
  have hz := (run_inv (inv_init uw) ops).sched sem hin
  constructor
  · rw [calculateFee_formula, hz]
    simp [FeeSchedule.zero]
  · intro hreg
    unfold payTuition
    rw [if_neg (not_not_intro hreg), if_pos (by simp [hin])]

theorem c8_amended_calculateFee_total_witness :
    calculateFee (run (initState 1) [.registerStudent 5 "S1"]) 5 "X" = 0 ∧
    payTuition (run (initState 1) [.registerStudent 5 "S1"]) 5 "X" 100 2 =
      .error .inactiveSemester := by
  have h := c8_amended_calculateFee_total 1 [.registerStudent 5 "S1"] 5 "X" 100 2
    (by decide)
  exact ⟨h.1, h.2 (by decide)⟩

/-- Claim C9: after a successful `processRefund` on the payment recorded for
a (student, semester) pair, `hasStudentPaid` reports false, yet `payTuition`
for that pair still fails with the Already-paid error (the pair-to-payment
mapping is never cleared), so a fully refunded student can never pay for
that semester again. -/
theorem c9_refund_blocks_repay (s s' : State) (a pid : Nat) (sem : String)
    (tok : Bool) (v now : Nat)
    (hssp : s.studentSemesterPayment a sem = pid) (hpid : pid ≠ 0)
    (h : processRefund s pid tok = .ok s') :
    hasStudentPaid s' a sem = false ∧
    ((s'.students a).isRegistered = true →
      (s'.feeSchedules sem).isActive = true →
      payTuition s' a sem v now = .error .alreadyPaid) := by
  simp only [processRefund] at h
  split_ifs at h with h1 h2 h3 h4 h5
  injection h with h
  subst h
  constructor
  · unfold hasStudentPaid
    dsimp only
    rw [hssp, if_neg hpid, upd_same]
    simp
  · intro hreg hact
    rw [payTuition_already v now hreg
      (by dsimp only; rw [hssp]; exact hpid), if_pos hact]

theorem c9_refund_blocks_repay_witness :
    hasStudentPaid (run (initState 1) [.registerStudent 5 "S1",
      .setFeeSchedule "A" 100 10 0, .payTuition 5 "A" 100 1,
      .processRefund 1 true]) 5 "A" = false ∧
    payTuition (run (initState 1) [.registerStudent 5 "S1",
        .setFeeSchedule "A" 100 10 0, .payTuition 5 "A" 100 1,
        .processRefund 1 true]) 5 "A" 100 2 = .error .alreadyPaid := by
  have h := c9_refund_blocks_repay (run (initState 1) [.registerStudent 5 "S1",
      .setFeeSchedule "A" 100 10 0, .payTuition 5 "A" 100 1])
    (run (initState 1) [.registerStudent 5 "S1", .setFeeSchedule "A" 100 10 0,
      .payTuition 5 "A" 100 1, .processRefund 1 true])
    5 1 "A" true 100 2 (by decide) (by decide) rfl
  exact ⟨h.1, h.2 (by decide) (by decide)⟩

/-- Claim C10: `restorePayment` for a registered student and a semester with
no fee schedule (base amount 0) succeeds but clamps the new payment's
remaining amount to 0 regardless of the positive restored gross amount, and
`processRefund` on that payment then fails with the Nothing-to-refund
error — replaying payments before their fee schedule silently destroys the
refundable balance. -/
theorem c10_restore_without_schedule (s s' : State) (a : Nat) (sem : String)
    (amt ts : Nat) (tok : Bool)
    (hreg : (s.students a).isRegistered = true)
    (hssp : s.studentSemesterPayment a sem = 0)
    (hbase : (s.feeSchedules sem).baseAmount = 0)
    (hamt : 0 < amt)
    (h : restorePayment s a sem amt ts = .ok s') :
    (s'.payments (s.paymentCounter + 1)).amount = amt ∧
    (s'.payments (s.paymentCounter + 1)).amountAfterRefund = 0 ∧
    processRefund s' (s.paymentCounter + 1) tok = .error .nothingToRefund := by
  have hsp : (s.feeSchedules sem).baseAmount -
      (s.feeSchedules sem).baseAmount * (s.students a).scholarshipPercent / 100
      = 0 := by
    rw [hbase]
    simp
  simp only [restorePayment] at h
  split_ifs at h with h1 h2 h3
  · injection h with h
    subst h
    refine ⟨by dsimp only; rw [upd_same], by dsimp only; rw [upd_same]; exact hsp, ?_⟩
    unfold processRefund
    dsimp only
    rw [upd_same]
    rw [if_neg (by simp), if_neg (by simp), if_pos hsp]
  · exfalso
    omega

theorem c10_restore_without_schedule_witness :
    ((run (initState 1) [.registerStudent 5 "S1", .restorePayment 5 "X" 100 0]
      ).payments 1).amount = 100 ∧
    ((run (initState 1) [.registerStudent 5 "S1", .restorePayment 5 "X" 100 0]
      ).payments 1).amountAfterRefund = 0 ∧
    processRefund (run (initState 1) [.registerStudent 5 "S1",
      .restorePayment 5 "X" 100 0]) 1 true = .error .nothingToRefund := by
  have h := c10_restore_without_schedule (run (initState 1)
      [.registerStudent 5 "S1"])
    (run (initState 1) [.registerStudent 5 "S1", .restorePayment 5 "X" 100 0])
    5 "X" 100 0 true (by decide) (by decide) (by decide) (by decide) rfl
  exact h

/-- Claim C6: for a registered student whose single payment's gross amount
`X` equals the full base fee, raising the scholarship percent from 0 to 50
refunds exactly `X / 2` (floor division, as in the EVM), leaving remaining
`X - X / 2`; raising it again from 50 to 100 refunds the remaining
`X - X / 2`; after both calls the refunded total equals exactly `X` and the
payment's remaining amount is 0. -/
theorem c6_scholarship_refund_halves (X : Nat) (hX : 0 < X) :
    applyScholarship (run (initState 1) [.registerStudent 5 "S1", .setFeeSchedule "A" X 1 0, .payTuition 5 "A" X 0]) 5 50 true =
      .ok (run (initState 1) [.registerStudent 5 "S1", .setFeeSchedule "A" X 1 0, .payTuition 5 "A" X 0, .applyScholarship 5 50 true]) ∧
    (run (initState 1) [.registerStudent 5 "S1", .setFeeSchedule "A" X 1 0, .payTuition 5 "A" X 0, .applyScholarship 5 50 true]).totalRefunded = X / 2 ∧
    ((run (initState 1) [.registerStudent 5 "S1", .setFeeSchedule "A" X 1 0, .payTuition 5 "A" X 0, .applyScholarship 5 50 true]).payments 1).amountAfterRefund = X - X / 2 ∧
    applyScholarship (run (initState 1) [.registerStudent 5 "S1", .setFeeSchedule "A" X 1 0, .payTuition 5 "A" X 0, .applyScholarship 5 50 true]) 5 100 true =
      .ok (run (initState 1) [.registerStudent 5 "S1", .setFeeSchedule "A" X 1 0, .payTuition 5 "A" X 0, .applyScholarship 5 50 true, .applyScholarship 5 100 true]) ∧
    (run (initState 1) [.registerStudent 5 "S1", .setFeeSchedule "A" X 1 0, .payTuition 5 "A" X 0, .applyScholarship 5 50 true, .applyScholarship 5 100 true]).totalRefunded =
      (run (initState 1) [.registerStudent 5 "S1", .setFeeSchedule "A" X 1 0, .payTuition 5 "A" X 0, .applyScholarship 5 50 true]).totalRefunded + (X - X / 2) ∧
    (run (initState 1) [.registerStudent 5 "S1", .setFeeSchedule "A" X 1 0, .payTuition 5 "A" X 0, .applyScholarship 5 50 true, .applyScholarship 5 100 true]).totalRefunded = X ∧
    ((run (initState 1) [.registerStudent 5 "S1", .setFeeSchedule "A" X 1 0, .payTuition 5 "A" X 0, .applyScholarship 5 50 true, .applyScholarship 5 100 true]).payments 1).amountAfterRefund = 0 := by
  rcases Nat.lt_or_ge X 2 with hlt | hX2
  · have hone : X = 1 := by omega
    subst hone
    exact ⟨rfl, rfl, rfl, rfl, rfl, rfl, rfl⟩
  · have hX0 : X ≠ 0 := by omega
    have e1 : step (initState 1) (.registerStudent 5 "S1") = { universityWallet := 1, paymentCounter := 0, totalCollected := 0, totalRefunded := 0, payments := fun _ => Payment.zero, students := upd (fun _ => Student.zero) 5 { studentId := "S1", walletAddress := 5, scholarshipPercent := 0, isRegistered := true }, studentIdToAddress := upd (fun _ => 0) "S1" 5, feeSchedules := fun _ => FeeSchedule.zero, studentSemesterPayment := fun _ _ => 0, studentPaymentIds := fun _ => [], activeSemesters := [], registeredStudents := [5], balance := 0 } := rfl
    have e2 : step { universityWallet := 1, paymentCounter := 0, totalCollected := 0, totalRefunded := 0, payments := fun _ => Payment.zero, students := upd (fun _ => Student.zero) 5 { studentId := "S1", walletAddress := 5, scholarshipPercent := 0, isRegistered := true }, studentIdToAddress := upd (fun _ => 0) "S1" 5, feeSchedules := fun _ => FeeSchedule.zero, studentSemesterPayment := fun _ _ => 0, studentPaymentIds := fun _ => [], activeSemesters := [], registeredStudents := [5], balance := 0 } (.setFeeSchedule "A" X 1 0) = { universityWallet := 1, paymentCounter := 0, totalCollected := 0, totalRefunded := 0, payments := fun _ => Payment.zero, students := upd (fun _ => Student.zero) 5 { studentId := "S1", walletAddress := 5, scholarshipPercent := 0, isRegistered := true }, studentIdToAddress := upd (fun _ => 0) "S1" 5, feeSchedules := upd (fun _ => FeeSchedule.zero) "A" { semester := "A", baseAmount := X, deadline := 1, isActive := true }, studentSemesterPayment := fun _ _ => 0, studentPaymentIds := fun _ => [], activeSemesters := ["A"], registeredStudents := [5], balance := 0 } :=
      step_ok (setFeeSchedule_ok hX0 (show 0 < 1 by decide))
    have e3 : step { universityWallet := 1, paymentCounter := 0, totalCollected := 0, totalRefunded := 0, payments := fun _ => Payment.zero, students := upd (fun _ => Student.zero) 5 { studentId := "S1", walletAddress := 5, scholarshipPercent := 0, isRegistered := true }, studentIdToAddress := upd (fun _ => 0) "S1" 5, feeSchedules := upd (fun _ => FeeSchedule.zero) "A" { semester := "A", baseAmount := X, deadline := 1, isActive := true }, studentSemesterPayment := fun _ _ => 0, studentPaymentIds := fun _ => [], activeSemesters := ["A"], registeredStudents := [5], balance := 0 } (.payTuition 5 "A" X 0) = { universityWallet := 1, paymentCounter := 1, totalCollected := 0 + X, totalRefunded := 0, payments := upd (fun _ => Payment.zero) 1 { student := 5, studentId := "S1", semester := "A", amount := X, amountAfterRefund := X, timestamp := 0, paid := true, refunded := false }, students := upd (fun _ => Student.zero) 5 { studentId := "S1", walletAddress := 5, scholarshipPercent := 0, isRegistered := true }, studentIdToAddress := upd (fun _ => 0) "S1" 5, feeSchedules := upd (fun _ => FeeSchedule.zero) "A" { semester := "A", baseAmount := X, deadline := 1, isActive := true }, studentSemesterPayment := upd (fun _ _ => 0) 5 (upd (fun _ => 0) "A" 1), studentPaymentIds := upd (fun _ => []) 5 [1], activeSemesters := ["A"], registeredStudents := [5], balance := 0 + X } :=
      step_ok (payTuition_ok rfl rfl rfl (Nat.lt_irrefl X))
    have er0 : run (initState 1) [.registerStudent 5 "S1", .setFeeSchedule "A" X 1 0, .payTuition 5 "A" X 0] = { universityWallet := 1, paymentCounter := 1, totalCollected := 0 + X, totalRefunded := 0, payments := upd (fun _ => Payment.zero) 1 { student := 5, studentId := "S1", semester := "A", amount := X, amountAfterRefund := X, timestamp := 0, paid := true, refunded := false }, students := upd (fun _ => Student.zero) 5 { studentId := "S1", walletAddress := 5, scholarshipPercent := 0, isRegistered := true }, studentIdToAddress := upd (fun _ => 0) "S1" 5, feeSchedules := upd (fun _ => FeeSchedule.zero) "A" { semester := "A", baseAmount := X, deadline := 1, isActive := true }, studentSemesterPayment := upd (fun _ _ => 0) 5 (upd (fun _ => 0) "A" 1), studentPaymentIds := upd (fun _ => []) 5 [1], activeSemesters := ["A"], registeredStudents := [5], balance := 0 + X } := by
      simp only [run, List.foldl_cons, List.foldl_nil]
      rw [e1, e2, e3]
    have hloop1 : (({ universityWallet := 1, paymentCounter := 1, totalCollected := 0 + X, totalRefunded := 0, payments := upd (fun _ => Payment.zero) 1 { student := 5, studentId := "S1", semester := "A", amount := X, amountAfterRefund := X, timestamp := 0, paid := true, refunded := false }, students := upd (fun _ => Student.zero) 5 { studentId := "S1", walletAddress := 5, scholarshipPercent := 0, isRegistered := true }, studentIdToAddress := upd (fun _ => 0) "S1" 5, feeSchedules := upd (fun _ => FeeSchedule.zero) "A" { semester := "A", baseAmount := X, deadline := 1, isActive := true }, studentSemesterPayment := upd (fun _ _ => 0) 5 (upd (fun _ => 0) "A" 1), studentPaymentIds := upd (fun _ => []) 5 [1], activeSemesters := ["A"], registeredStudents := [5], balance := 0 + X } : State).studentPaymentIds 5).foldl
        (scholarshipStep ({ universityWallet := 1, paymentCounter := 1, totalCollected := 0 + X, totalRefunded := 0, payments := upd (fun _ => Payment.zero) 1 { student := 5, studentId := "S1", semester := "A", amount := X, amountAfterRefund := X, timestamp := 0, paid := true, refunded := false }, students := upd (fun _ => Student.zero) 5 { studentId := "S1", walletAddress := 5, scholarshipPercent := 0, isRegistered := true }, studentIdToAddress := upd (fun _ => 0) "S1" 5, feeSchedules := upd (fun _ => FeeSchedule.zero) "A" { semester := "A", baseAmount := X, deadline := 1, isActive := true }, studentSemesterPayment := upd (fun _ _ => 0) 5 (upd (fun _ => 0) "A" 1), studentPaymentIds := upd (fun _ => []) 5 [1], activeSemesters := ["A"], registeredStudents := [5], balance := 0 + X } : State).feeSchedules 50
          (({ universityWallet := 1, paymentCounter := 1, totalCollected := 0 + X, totalRefunded := 0, payments := upd (fun _ => Payment.zero) 1 { student := 5, studentId := "S1", semester := "A", amount := X, amountAfterRefund := X, timestamp := 0, paid := true, refunded := false }, students := upd (fun _ => Student.zero) 5 { studentId := "S1", walletAddress := 5, scholarshipPercent := 0, isRegistered := true }, studentIdToAddress := upd (fun _ => 0) "S1" 5, feeSchedules := upd (fun _ => FeeSchedule.zero) "A" { semester := "A", baseAmount := X, deadline := 1, isActive := true }, studentSemesterPayment := upd (fun _ _ => 0) 5 (upd (fun _ => 0) "A" 1), studentPaymentIds := upd (fun _ => []) 5 [1], activeSemesters := ["A"], registeredStudents := [5], balance := 0 + X } : State).students 5).scholarshipPercent)
        (({ universityWallet := 1, paymentCounter := 1, totalCollected := 0 + X, totalRefunded := 0, payments := upd (fun _ => Payment.zero) 1 { student := 5, studentId := "S1", semester := "A", amount := X, amountAfterRefund := X, timestamp := 0, paid := true, refunded := false }, students := upd (fun _ => Student.zero) 5 { studentId := "S1", walletAddress := 5, scholarshipPercent := 0, isRegistered := true }, studentIdToAddress := upd (fun _ => 0) "S1" 5, feeSchedules := upd (fun _ => FeeSchedule.zero) "A" { semester := "A", baseAmount := X, deadline := 1, isActive := true }, studentSemesterPayment := upd (fun _ _ => 0) 5 (upd (fun _ => 0) "A" 1), studentPaymentIds := upd (fun _ => []) 5 [1], activeSemesters := ["A"], registeredStudents := [5], balance := 0 + X } : State).payments, 0) = (upd (upd (fun _ => Payment.zero) 1 { student := 5, studentId := "S1", semester := "A", amount := X, amountAfterRefund := X, timestamp := 0, paid := true, refunded := false }) 1 { student := 5, studentId := "S1", semester := "A", amount := X, amountAfterRefund := X - (if X < X - X * 0 / 100 - (X - X * 50 / 100) then X else X - X * 0 / 100 - (X - X * 50 / 100)), timestamp := 0, paid := true, refunded := false }, 0 + (if X < X - X * 0 / 100 - (X - X * 50 / 100) then X else X - X * 0 / 100 - (X - X * 50 / 100))) :=
      scholarshipStep_refund ({ universityWallet := 1, paymentCounter := 1, totalCollected := 0 + X, totalRefunded := 0, payments := upd (fun _ => Payment.zero) 1 { student := 5, studentId := "S1", semester := "A", amount := X, amountAfterRefund := X, timestamp := 0, paid := true, refunded := false }, students := upd (fun _ => Student.zero) 5 { studentId := "S1", walletAddress := 5, scholarshipPercent := 0, isRegistered := true }, studentIdToAddress := upd (fun _ => 0) "S1" 5, feeSchedules := upd (fun _ => FeeSchedule.zero) "A" { semester := "A", baseAmount := X, deadline := 1, isActive := true }, studentSemesterPayment := upd (fun _ _ => 0) 5 (upd (fun _ => 0) "A" 1), studentPaymentIds := upd (fun _ => []) 5 [1], activeSemesters := ["A"], registeredStudents := [5], balance := 0 + X } : State).feeSchedules 50 0
        (({ universityWallet := 1, paymentCounter := 1, totalCollected := 0 + X, totalRefunded := 0, payments := upd (fun _ => Payment.zero) 1 { student := 5, studentId := "S1", semester := "A", amount := X, amountAfterRefund := X, timestamp := 0, paid := true, refunded := false }, students := upd (fun _ => Student.zero) 5 { studentId := "S1", walletAddress := 5, scholarshipPercent := 0, isRegistered := true }, studentIdToAddress := upd (fun _ => 0) "S1" 5, feeSchedules := upd (fun _ => FeeSchedule.zero) "A" { semester := "A", baseAmount := X, deadline := 1, isActive := true }, studentSemesterPayment := upd (fun _ _ => 0) 5 (upd (fun _ => 0) "A" 1), studentPaymentIds := upd (fun _ => []) 5 [1], activeSemesters := ["A"], registeredStudents := [5], balance := 0 + X } : State).payments, 0) 1 rfl (fun hc => Bool.noConfusion hc) hX
        (show X - X * 50 / 100 < X - X * 0 / 100 by omega)
    have hclean1 : ((upd (upd (fun _ => Payment.zero) 1 { student := 5, studentId := "S1", semester := "A", amount := X, amountAfterRefund := X, timestamp := 0, paid := true, refunded := false }) 1 { student := 5, studentId := "S1", semester := "A", amount := X, amountAfterRefund := X - (if X < X - X * 0 / 100 - (X - X * 50 / 100) then X else X - X * 0 / 100 - (X - X * 50 / 100)), timestamp := 0, paid := true, refunded := false } : Nat → Payment), 0 + (if X < X - X * 0 / 100 - (X - X * 50 / 100) then X else X - X * 0 / 100 - (X - X * 50 / 100))) = ((upd (upd (fun _ => Payment.zero) 1 { student := 5, studentId := "S1", semester := "A", amount := X, amountAfterRefund := X, timestamp := 0, paid := true, refunded := false }) 1 { student := 5, studentId := "S1", semester := "A", amount := X, amountAfterRefund := X - X / 2, timestamp := 0, paid := true, refunded := false } : Nat → Payment), X / 2) := by
      have haar : X - (if X < X - X * 0 / 100 - (X - X * 50 / 100) then X else X - X * 0 / 100 - (X - X * 50 / 100)) = X - X / 2 := by split_ifs <;> omega
      have ht : 0 + (if X < X - X * 0 / 100 - (X - X * 50 / 100) then X else X - X * 0 / 100 - (X - X * 50 / 100)) = X / 2 := by split_ifs <;> omega
      simp only [Prod.mk.injEq]
      exact ⟨by rw [haar], ht⟩
    have hres1 : applyScholarship { universityWallet := 1, paymentCounter := 1, totalCollected := 0 + X, totalRefunded := 0, payments := upd (fun _ => Payment.zero) 1 { student := 5, studentId := "S1", semester := "A", amount := X, amountAfterRefund := X, timestamp := 0, paid := true, refunded := false }, students := upd (fun _ => Student.zero) 5 { studentId := "S1", walletAddress := 5, scholarshipPercent := 0, isRegistered := true }, studentIdToAddress := upd (fun _ => 0) "S1" 5, feeSchedules := upd (fun _ => FeeSchedule.zero) "A" { semester := "A", baseAmount := X, deadline := 1, isActive := true }, studentSemesterPayment := upd (fun _ _ => 0) 5 (upd (fun _ => 0) "A" 1), studentPaymentIds := upd (fun _ => []) 5 [1], activeSemesters := ["A"], registeredStudents := [5], balance := 0 + X } 5 50 true = .ok { universityWallet := 1, paymentCounter := 1, totalCollected := 0 + X, totalRefunded := 0 + X / 2, payments := upd (upd (fun _ => Payment.zero) 1 { student := 5, studentId := "S1", semester := "A", amount := X, amountAfterRefund := X, timestamp := 0, paid := true, refunded := false }) 1 { student := 5, studentId := "S1", semester := "A", amount := X, amountAfterRefund := X - X / 2, timestamp := 0, paid := true, refunded := false }, students := upd (upd (fun _ => Student.zero) 5 { studentId := "S1", walletAddress := 5, scholarshipPercent := 0, isRegistered := true }) 5 { studentId := "S1", walletAddress := 5, scholarshipPercent := 50, isRegistered := true }, studentIdToAddress := upd (fun _ => 0) "S1" 5, feeSchedules := upd (fun _ => FeeSchedule.zero) "A" { semester := "A", baseAmount := X, deadline := 1, isActive := true }, studentSemesterPayment := upd (fun _ _ => 0) 5 (upd (fun _ => 0) "A" 1), studentPaymentIds := upd (fun _ => []) 5 [1], activeSemesters := ["A"], registeredStudents := [5], balance := 0 + X - X / 2 } :=
      applyScholarship_commit rfl (by omega) (show (0:Nat) < 50 by decide)
        (hloop1.trans hclean1) (show 0 < X / 2 by omega)
        (show ¬ 0 + X < X / 2 by omega)
    have e4 : step { universityWallet := 1, paymentCounter := 1, totalCollected := 0 + X, totalRefunded := 0, payments := upd (fun _ => Payment.zero) 1 { student := 5, studentId := "S1", semester := "A", amount := X, amountAfterRefund := X, timestamp := 0, paid := true, refunded := false }, students := upd (fun _ => Student.zero) 5 { studentId := "S1", walletAddress := 5, scholarshipPercent := 0, isRegistered := true }, studentIdToAddress := upd (fun _ => 0) "S1" 5, feeSchedules := upd (fun _ => FeeSchedule.zero) "A" { semester := "A", baseAmount := X, deadline := 1, isActive := true }, studentSemesterPayment := upd (fun _ _ => 0) 5 (upd (fun _ => 0) "A" 1), studentPaymentIds := upd (fun _ => []) 5 [1], activeSemesters := ["A"], registeredStudents := [5], balance := 0 + X } (.applyScholarship 5 50 true) = { universityWallet := 1, paymentCounter := 1, totalCollected := 0 + X, totalRefunded := 0 + X / 2, payments := upd (upd (fun _ => Payment.zero) 1 { student := 5, studentId := "S1", semester := "A", amount := X, amountAfterRefund := X, timestamp := 0, paid := true, refunded := false }) 1 { student := 5, studentId := "S1", semester := "A", amount := X, amountAfterRefund := X - X / 2, timestamp := 0, paid := true, refunded := false }, students := upd (upd (fun _ => Student.zero) 5 { studentId := "S1", walletAddress := 5, scholarshipPercent := 0, isRegistered := true }) 5 { studentId := "S1", walletAddress := 5, scholarshipPercent := 50, isRegistered := true }, studentIdToAddress := upd (fun _ => 0) "S1" 5, feeSchedules := upd (fun _ => FeeSchedule.zero) "A" { semester := "A", baseAmount := X, deadline := 1, isActive := true }, studentSemesterPayment := upd (fun _ _ => 0) 5 (upd (fun _ => 0) "A" 1), studentPaymentIds := upd (fun _ => []) 5 [1], activeSemesters := ["A"], registeredStudents := [5], balance := 0 + X - X / 2 } := step_ok hres1
    have er1 : run (initState 1) [.registerStudent 5 "S1", .setFeeSchedule "A" X 1 0, .payTuition 5 "A" X 0, .applyScholarship 5 50 true] = { universityWallet := 1, paymentCounter := 1, totalCollected := 0 + X, totalRefunded := 0 + X / 2, payments := upd (upd (fun _ => Payment.zero) 1 { student := 5, studentId := "S1", semester := "A", amount := X, amountAfterRefund := X, timestamp := 0, paid := true, refunded := false }) 1 { student := 5, studentId := "S1", semester := "A", amount := X, amountAfterRefund := X - X / 2, timestamp := 0, paid := true, refunded := false }, students := upd (upd (fun _ => Student.zero) 5 { studentId := "S1", walletAddress := 5, scholarshipPercent := 0, isRegistered := true }) 5 { studentId := "S1", walletAddress := 5, scholarshipPercent := 50, isRegistered := true }, studentIdToAddress := upd (fun _ => 0) "S1" 5, feeSchedules := upd (fun _ => FeeSchedule.zero) "A" { semester := "A", baseAmount := X, deadline := 1, isActive := true }, studentSemesterPayment := upd (fun _ _ => 0) 5 (upd (fun _ => 0) "A" 1), studentPaymentIds := upd (fun _ => []) 5 [1], activeSemesters := ["A"], registeredStudents := [5], balance := 0 + X - X / 2 } := by
      simp only [run, List.foldl_cons, List.foldl_nil]
      rw [e1, e2, e3, e4]
    have hloop2 : (({ universityWallet := 1, paymentCounter := 1, totalCollected := 0 + X, totalRefunded := 0 + X / 2, payments := upd (upd (fun _ => Payment.zero) 1 { student := 5, studentId := "S1", semester := "A", amount := X, amountAfterRefund := X, timestamp := 0, paid := true, refunded := false }) 1 { student := 5, studentId := "S1", semester := "A", amount := X, amountAfterRefund := X - X / 2, timestamp := 0, paid := true, refunded := false }, students := upd (upd (fun _ => Student.zero) 5 { studentId := "S1", walletAddress := 5, scholarshipPercent := 0, isRegistered := true }) 5 { studentId := "S1", walletAddress := 5, scholarshipPercent := 50, isRegistered := true }, studentIdToAddress := upd (fun _ => 0) "S1" 5, feeSchedules := upd (fun _ => FeeSchedule.zero) "A" { semester := "A", baseAmount := X, deadline := 1, isActive := true }, studentSemesterPayment := upd (fun _ _ => 0) 5 (upd (fun _ => 0) "A" 1), studentPaymentIds := upd (fun _ => []) 5 [1], activeSemesters := ["A"], registeredStudents := [5], balance := 0 + X - X / 2 } : State).studentPaymentIds 5).foldl
        (scholarshipStep ({ universityWallet := 1, paymentCounter := 1, totalCollected := 0 + X, totalRefunded := 0 + X / 2, payments := upd (upd (fun _ => Payment.zero) 1 { student := 5, studentId := "S1", semester := "A", amount := X, amountAfterRefund := X, timestamp := 0, paid := true, refunded := false }) 1 { student := 5, studentId := "S1", semester := "A", amount := X, amountAfterRefund := X - X / 2, timestamp := 0, paid := true, refunded := false }, students := upd (upd (fun _ => Student.zero) 5 { studentId := "S1", walletAddress := 5, scholarshipPercent := 0, isRegistered := true }) 5 { studentId := "S1", walletAddress := 5, scholarshipPercent := 50, isRegistered := true }, studentIdToAddress := upd (fun _ => 0) "S1" 5, feeSchedules := upd (fun _ => FeeSchedule.zero) "A" { semester := "A", baseAmount := X, deadline := 1, isActive := true }, studentSemesterPayment := upd (fun _ _ => 0) 5 (upd (fun _ => 0) "A" 1), studentPaymentIds := upd (fun _ => []) 5 [1], activeSemesters := ["A"], registeredStudents := [5], balance := 0 + X - X / 2 } : State).feeSchedules 100
          (({ universityWallet := 1, paymentCounter := 1, totalCollected := 0 + X, totalRefunded := 0 + X / 2, payments := upd (upd (fun _ => Payment.zero) 1 { student := 5, studentId := "S1", semester := "A", amount := X, amountAfterRefund := X, timestamp := 0, paid := true, refunded := false }) 1 { student := 5, studentId := "S1", semester := "A", amount := X, amountAfterRefund := X - X / 2, timestamp := 0, paid := true, refunded := false }, students := upd (upd (fun _ => Student.zero) 5 { studentId := "S1", walletAddress := 5, scholarshipPercent := 0, isRegistered := true }) 5 { studentId := "S1", walletAddress := 5, scholarshipPercent := 50, isRegistered := true }, studentIdToAddress := upd (fun _ => 0) "S1" 5, feeSchedules := upd (fun _ => FeeSchedule.zero) "A" { semester := "A", baseAmount := X, deadline := 1, isActive := true }, studentSemesterPayment := upd (fun _ _ => 0) 5 (upd (fun _ => 0) "A" 1), studentPaymentIds := upd (fun _ => []) 5 [1], activeSemesters := ["A"], registeredStudents := [5], balance := 0 + X - X / 2 } : State).students 5).scholarshipPercent)
        (({ universityWallet := 1, paymentCounter := 1, totalCollected := 0 + X, totalRefunded := 0 + X / 2, payments := upd (upd (fun _ => Payment.zero) 1 { student := 5, studentId := "S1", semester := "A", amount := X, amountAfterRefund := X, timestamp := 0, paid := true, refunded := false }) 1 { student := 5, studentId := "S1", semester := "A", amount := X, amountAfterRefund := X - X / 2, timestamp := 0, paid := true, refunded := false }, students := upd (upd (fun _ => Student.zero) 5 { studentId := "S1", walletAddress := 5, scholarshipPercent := 0, isRegistered := true }) 5 { studentId := "S1", walletAddress := 5, scholarshipPercent := 50, isRegistered := true }, studentIdToAddress := upd (fun _ => 0) "S1" 5, feeSchedules := upd (fun _ => FeeSchedule.zero) "A" { semester := "A", baseAmount := X, deadline := 1, isActive := true }, studentSemesterPayment := upd (fun _ _ => 0) 5 (upd (fun _ => 0) "A" 1), studentPaymentIds := upd (fun _ => []) 5 [1], activeSemesters := ["A"], registeredStudents := [5], balance := 0 + X - X / 2 } : State).payments, 0) = (upd (upd (upd (fun _ => Payment.zero) 1 { student := 5, studentId := "S1", semester := "A", amount := X, amountAfterRefund := X, timestamp := 0, paid := true, refunded := false }) 1 { student := 5, studentId := "S1", semester := "A", amount := X, amountAfterRefund := X - X / 2, timestamp := 0, paid := true, refunded := false }) 1 { student := 5, studentId := "S1", semester := "A", amount := X, amountAfterRefund := X - X / 2 - (if X - X / 2 < X - X * 50 / 100 - (X - X * 100 / 100) then X - X / 2 else X - X * 50 / 100 - (X - X * 100 / 100)), timestamp := 0, paid := true, refunded := false }, 0 + (if X - X / 2 < X - X * 50 / 100 - (X - X * 100 / 100) then X - X / 2 else X - X * 50 / 100 - (X - X * 100 / 100))) :=
      scholarshipStep_refund ({ universityWallet := 1, paymentCounter := 1, totalCollected := 0 + X, totalRefunded := 0 + X / 2, payments := upd (upd (fun _ => Payment.zero) 1 { student := 5, studentId := "S1", semester := "A", amount := X, amountAfterRefund := X, timestamp := 0, paid := true, refunded := false }) 1 { student := 5, studentId := "S1", semester := "A", amount := X, amountAfterRefund := X - X / 2, timestamp := 0, paid := true, refunded := false }, students := upd (upd (fun _ => Student.zero) 5 { studentId := "S1", walletAddress := 5, scholarshipPercent := 0, isRegistered := true }) 5 { studentId := "S1", walletAddress := 5, scholarshipPercent := 50, isRegistered := true }, studentIdToAddress := upd (fun _ => 0) "S1" 5, feeSchedules := upd (fun _ => FeeSchedule.zero) "A" { semester := "A", baseAmount := X, deadline := 1, isActive := true }, studentSemesterPayment := upd (fun _ _ => 0) 5 (upd (fun _ => 0) "A" 1), studentPaymentIds := upd (fun _ => []) 5 [1], activeSemesters := ["A"], registeredStudents := [5], balance := 0 + X - X / 2 } : State).feeSchedules 100 50
        (({ universityWallet := 1, paymentCounter := 1, totalCollected := 0 + X, totalRefunded := 0 + X / 2, payments := upd (upd (fun _ => Payment.zero) 1 { student := 5, studentId := "S1", semester := "A", amount := X, amountAfterRefund := X, timestamp := 0, paid := true, refunded := false }) 1 { student := 5, studentId := "S1", semester := "A", amount := X, amountAfterRefund := X - X / 2, timestamp := 0, paid := true, refunded := false }, students := upd (upd (fun _ => Student.zero) 5 { studentId := "S1", walletAddress := 5, scholarshipPercent := 0, isRegistered := true }) 5 { studentId := "S1", walletAddress := 5, scholarshipPercent := 50, isRegistered := true }, studentIdToAddress := upd (fun _ => 0) "S1" 5, feeSchedules := upd (fun _ => FeeSchedule.zero) "A" { semester := "A", baseAmount := X, deadline := 1, isActive := true }, studentSemesterPayment := upd (fun _ _ => 0) 5 (upd (fun _ => 0) "A" 1), studentPaymentIds := upd (fun _ => []) 5 [1], activeSemesters := ["A"], registeredStudents := [5], balance := 0 + X - X / 2 } : State).payments, 0) 1 rfl (fun hc => Bool.noConfusion hc)
        (show 0 < X - X / 2 by omega)
        (show X - X * 100 / 100 < X - X * 50 / 100 by omega)
    have hclean2 : ((upd (upd (upd (fun _ => Payment.zero) 1 { student := 5, studentId := "S1", semester := "A", amount := X, amountAfterRefund := X, timestamp := 0, paid := true, refunded := false }) 1 { student := 5, studentId := "S1", semester := "A", amount := X, amountAfterRefund := X - X / 2, timestamp := 0, paid := true, refunded := false }) 1 { student := 5, studentId := "S1", semester := "A", amount := X, amountAfterRefund := X - X / 2 - (if X - X / 2 < X - X * 50 / 100 - (X - X * 100 / 100) then X - X / 2 else X - X * 50 / 100 - (X - X * 100 / 100)), timestamp := 0, paid := true, refunded := false } : Nat → Payment), 0 + (if X - X / 2 < X - X * 50 / 100 - (X - X * 100 / 100) then X - X / 2 else X - X * 50 / 100 - (X - X * 100 / 100))) =
        ((upd (upd (upd (fun _ => Payment.zero) 1 { student := 5, studentId := "S1", semester := "A", amount := X, amountAfterRefund := X, timestamp := 0, paid := true, refunded := false }) 1 { student := 5, studentId := "S1", semester := "A", amount := X, amountAfterRefund := X - X / 2, timestamp := 0, paid := true, refunded := false }) 1 { student := 5, studentId := "S1", semester := "A", amount := X, amountAfterRefund := 0, timestamp := 0, paid := true, refunded := false } : Nat → Payment), X - X / 2) := by
      have haar : X - X / 2 - (if X - X / 2 < X - X * 50 / 100 - (X - X * 100 / 100) then X - X / 2 else X - X * 50 / 100 - (X - X * 100 / 100)) = 0 := by split_ifs <;> omega
      have ht : 0 + (if X - X / 2 < X - X * 50 / 100 - (X - X * 100 / 100) then X - X / 2 else X - X * 50 / 100 - (X - X * 100 / 100)) = X - X / 2 := by split_ifs <;> omega
      simp only [Prod.mk.injEq]
      exact ⟨by rw [haar], ht⟩
    have hres2 : applyScholarship { universityWallet := 1, paymentCounter := 1, totalCollected := 0 + X, totalRefunded := 0 + X / 2, payments := upd (upd (fun _ => Payment.zero) 1 { student := 5, studentId := "S1", semester := "A", amount := X, amountAfterRefund := X, timestamp := 0, paid := true, refunded := false }) 1 { student := 5, studentId := "S1", semester := "A", amount := X, amountAfterRefund := X - X / 2, timestamp := 0, paid := true, refunded := false }, students := upd (upd (fun _ => Student.zero) 5 { studentId := "S1", walletAddress := 5, scholarshipPercent := 0, isRegistered := true }) 5 { studentId := "S1", walletAddress := 5, scholarshipPercent := 50, isRegistered := true }, studentIdToAddress := upd (fun _ => 0) "S1" 5, feeSchedules := upd (fun _ => FeeSchedule.zero) "A" { semester := "A", baseAmount := X, deadline := 1, isActive := true }, studentSemesterPayment := upd (fun _ _ => 0) 5 (upd (fun _ => 0) "A" 1), studentPaymentIds := upd (fun _ => []) 5 [1], activeSemesters := ["A"], registeredStudents := [5], balance := 0 + X - X / 2 } 5 100 true = .ok { universityWallet := 1, paymentCounter := 1, totalCollected := 0 + X, totalRefunded := 0 + X / 2 + (X - X / 2), payments := upd (upd (upd (fun _ => Payment.zero) 1 { student := 5, studentId := "S1", semester := "A", amount := X, amountAfterRefund := X, timestamp := 0, paid := true, refunded := false }) 1 { student := 5, studentId := "S1", semester := "A", amount := X, amountAfterRefund := X - X / 2, timestamp := 0, paid := true, refunded := false }) 1 { student := 5, studentId := "S1", semester := "A", amount := X, amountAfterRefund := 0, timestamp := 0, paid := true, refunded := false }, students := upd (upd (upd (fun _ => Student.zero) 5 { studentId := "S1", walletAddress := 5, scholarshipPercent := 0, isRegistered := true }) 5 { studentId := "S1", walletAddress := 5, scholarshipPercent := 50, isRegistered := true }) 5 { studentId := "S1", walletAddress := 5, scholarshipPercent := 100, isRegistered := true }, studentIdToAddress := upd (fun _ => 0) "S1" 5, feeSchedules := upd (fun _ => FeeSchedule.zero) "A" { semester := "A", baseAmount := X, deadline := 1, isActive := true }, studentSemesterPayment := upd (fun _ _ => 0) 5 (upd (fun _ => 0) "A" 1), studentPaymentIds := upd (fun _ => []) 5 [1], activeSemesters := ["A"], registeredStudents := [5], balance := 0 + X - X / 2 - (X - X / 2) } :=
      applyScholarship_commit rfl (by omega) (show (50:Nat) < 100 by decide)
        (hloop2.trans hclean2) (show 0 < X - X / 2 by omega)
        (show ¬ 0 + X - X / 2 < X - X / 2 by omega)
    have e5 : step { universityWallet := 1, paymentCounter := 1, totalCollected := 0 + X, totalRefunded := 0 + X / 2, payments := upd (upd (fun _ => Payment.zero) 1 { student := 5, studentId := "S1", semester := "A", amount := X, amountAfterRefund := X, timestamp := 0, paid := true, refunded := false }) 1 { student := 5, studentId := "S1", semester := "A", amount := X, amountAfterRefund := X - X / 2, timestamp := 0, paid := true, refunded := false }, students := upd (upd (fun _ => Student.zero) 5 { studentId := "S1", walletAddress := 5, scholarshipPercent := 0, isRegistered := true }) 5 { studentId := "S1", walletAddress := 5, scholarshipPercent := 50, isRegistered := true }, studentIdToAddress := upd (fun _ => 0) "S1" 5, feeSchedules := upd (fun _ => FeeSchedule.zero) "A" { semester := "A", baseAmount := X, deadline := 1, isActive := true }, studentSemesterPayment := upd (fun _ _ => 0) 5 (upd (fun _ => 0) "A" 1), studentPaymentIds := upd (fun _ => []) 5 [1], activeSemesters := ["A"], registeredStudents := [5], balance := 0 + X - X / 2 } (.applyScholarship 5 100 true) = { universityWallet := 1, paymentCounter := 1, totalCollected := 0 + X, totalRefunded := 0 + X / 2 + (X - X / 2), payments := upd (upd (upd (fun _ => Payment.zero) 1 { student := 5, studentId := "S1", semester := "A", amount := X, amountAfterRefund := X, timestamp := 0, paid := true, refunded := false }) 1 { student := 5, studentId := "S1", semester := "A", amount := X, amountAfterRefund := X - X / 2, timestamp := 0, paid := true, refunded := false }) 1 { student := 5, studentId := "S1", semester := "A", amount := X, amountAfterRefund := 0, timestamp := 0, paid := true, refunded := false }, students := upd (upd (upd (fun _ => Student.zero) 5 { studentId := "S1", walletAddress := 5, scholarshipPercent := 0, isRegistered := true }) 5 { studentId := "S1", walletAddress := 5, scholarshipPercent := 50, isRegistered := true }) 5 { studentId := "S1", walletAddress := 5, scholarshipPercent := 100, isRegistered := true }, studentIdToAddress := upd (fun _ => 0) "S1" 5, feeSchedules := upd (fun _ => FeeSchedule.zero) "A" { semester := "A", baseAmount := X, deadline := 1, isActive := true }, studentSemesterPayment := upd (fun _ _ => 0) 5 (upd (fun _ => 0) "A" 1), studentPaymentIds := upd (fun _ => []) 5 [1], activeSemesters := ["A"], registeredStudents := [5], balance := 0 + X - X / 2 - (X - X / 2) } := step_ok hres2
    have er2 : run (initState 1) [.registerStudent 5 "S1", .setFeeSchedule "A" X 1 0, .payTuition 5 "A" X 0, .applyScholarship 5 50 true, .applyScholarship 5 100 true] = { universityWallet := 1, paymentCounter := 1, totalCollected := 0 + X, totalRefunded := 0 + X / 2 + (X - X / 2), payments := upd (upd (upd (fun _ => Payment.zero) 1 { student := 5, studentId := "S1", semester := "A", amount := X, amountAfterRefund := X, timestamp := 0, paid := true, refunded := false }) 1 { student := 5, studentId := "S1", semester := "A", amount := X, amountAfterRefund := X - X / 2, timestamp := 0, paid := true, refunded := false }) 1 { student := 5, studentId := "S1", semester := "A", amount := X, amountAfterRefund := 0, timestamp := 0, paid := true, refunded := false }, students := upd (upd (upd (fun _ => Student.zero) 5 { studentId := "S1", walletAddress := 5, scholarshipPercent := 0, isRegistered := true }) 5 { studentId := "S1", walletAddress := 5, scholarshipPercent := 50, isRegistered := true }) 5 { studentId := "S1", walletAddress := 5, scholarshipPercent := 100, isRegistered := true }, studentIdToAddress := upd (fun _ => 0) "S1" 5, feeSchedules := upd (fun _ => FeeSchedule.zero) "A" { semester := "A", baseAmount := X, deadline := 1, isActive := true }, studentSemesterPayment := upd (fun _ _ => 0) 5 (upd (fun _ => 0) "A" 1), studentPaymentIds := upd (fun _ => []) 5 [1], activeSemesters := ["A"], registeredStudents := [5], balance := 0 + X - X / 2 - (X - X / 2) } := by
      simp only [run, List.foldl_cons, List.foldl_nil]
      rw [e1, e2, e3, e4, e5]
    refine ⟨?_, ?_, ?_, ?_, ?_, ?_, ?_⟩
    · rw [er0, er1]
      exact hres1
    · rw [er1]
      show 0 + X / 2 = X / 2
      omega
    · rw [er1]
      rfl
    · rw [er1, er2]
      exact hres2
    · rw [er1, er2]
    · rw [er2]
      show 0 + X / 2 + (X - X / 2) = X
      omega
    · rw [er2]
      rfl

theorem c6_scholarship_refund_halves_witness :
    applyScholarship (run (initState 1) [.registerStudent 5 "S1", .setFeeSchedule "A" 100 1 0, .payTuition 5 "A" 100 0]) 5 50 true =
      .ok (run (initState 1) [.registerStudent 5 "S1", .setFeeSchedule "A" 100 1 0, .payTuition 5 "A" 100 0, .applyScholarship 5 50 true]) ∧
    (run (initState 1) [.registerStudent 5 "S1", .setFeeSchedule "A" 100 1 0, .payTuition 5 "A" 100 0, .applyScholarship 5 50 true]).totalRefunded = 100 / 2 ∧
    ((run (initState 1) [.registerStudent 5 "S1", .setFeeSchedule "A" 100 1 0, .payTuition 5 "A" 100 0, .applyScholarship 5 50 true]).payments 1).amountAfterRefund = 100 - 100 / 2 ∧
    applyScholarship (run (initState 1) [.registerStudent 5 "S1", .setFeeSchedule "A" 100 1 0, .payTuition 5 "A" 100 0, .applyScholarship 5 50 true]) 5 100 true =
      .ok (run (initState 1) [.registerStudent 5 "S1", .setFeeSchedule "A" 100 1 0, .payTuition 5 "A" 100 0, .applyScholarship 5 50 true, .applyScholarship 5 100 true]) ∧
    (run (initState 1) [.registerStudent 5 "S1", .setFeeSchedule "A" 100 1 0, .payTuition 5 "A" 100 0, .applyScholarship 5 50 true, .applyScholarship 5 100 true]).totalRefunded =
      (run (initState 1) [.registerStudent 5 "S1", .setFeeSchedule "A" 100 1 0, .payTuition 5 "A" 100 0, .applyScholarship 5 50 true]).totalRefunded + (100 - 100 / 2) ∧
    (run (initState 1) [.registerStudent 5 "S1", .setFeeSchedule "A" 100 1 0, .payTuition 5 "A" 100 0, .applyScholarship 5 50 true, .applyScholarship 5 100 true]).totalRefunded = 100 ∧
    ((run (initState 1) [.registerStudent 5 "S1", .setFeeSchedule "A" 100 1 0, .payTuition 5 "A" 100 0, .applyScholarship 5 50 true, .applyScholarship 5 100 true]).payments 1).amountAfterRefund = 0 :=
  c6_scholarship_refund_halves 100 (by decide)



/-- Claim C2, counterexample: a ledger state reached by registering two
students, setting one fee schedule, accepting one full payment and then
applying a 30% scholarship (which refunds 30) has `totalRefunded = 30`;
replaying the corresponding snapshot document into a fresh ledger produces
`totalRefunded = 0`, so the restored state is not identical to the
pre-restart state even ignoring timestamps. -/
theorem c2_counterexample :
    (run (initState 1) [.registerStudent 5 "SV1", .registerStudent 6 "SV2",
      .setFeeSchedule "2024-1" 100 10 0, .payTuition 5 "2024-1" 100 1,
      .applyScholarship 5 30 true]).totalRefunded = 30 ∧
    (replay 2 (snapSetScholarship (snapAddPayment (snapAddFeeSchedule
      (snapAddStudent (snapAddStudent Snapshot.empty 5 "SV1") 6 "SV2")
      "2024-1" 100 10) 5 "2024-1" 100 1) 5 30) (initState 1)).totalRefunded = 0 ∧
    ¬ LedgerEqFull (run (initState 1) [.registerStudent 5 "SV1", .registerStudent 6 "SV2",
      .setFeeSchedule "2024-1" 100 10 0, .payTuition 5 "2024-1" 100 1,
      .applyScholarship 5 30 true])
      (replay 2 (snapSetScholarship (snapAddPayment (snapAddFeeSchedule
      (snapAddStudent (snapAddStudent Snapshot.empty 5 "SV1") 6 "SV2")
      "2024-1" 100 10) 5 "2024-1" 100 1) 5 30) (initState 1)) := by
  refine ⟨by decide, by decide, fun h => absurd h.2 (by decide)⟩

/-- Claim C2, amended: replaying the snapshot (fee schedules, then students, then
scholarships, then payments via restorePayment) into a fresh ledger reproduces the
pre-restart payment records, remaining amounts, registry, scholarship percents, fee
schedules, pair index, enumeration arrays, payment counter and totalCollected
(ignoring timestamps), for the canonical two-student / one-schedule / one-scholarship /
one-exact-payment scenarios in either order; but totalRefunded restarts at 0: it matches
the pre-restart value only when the scholarship preceded the payment (no refund occurred);
when the scholarship followed the payment, the pre-restart totalRefunded = B*p/100 is lost. -/
theorem c2_amended_restore_roundtrip (B p : Nat) (hB : 0 < B) (hp : p ≤ 100) :
    LedgerEqIgnTs (run (initState 1) [.registerStudent 5 "SV1", .registerStudent 6 "SV2", .setFeeSchedule "2024-1" B 10 0, .applyScholarship 5 p true, .payTuition 5 "2024-1" (B - B * p / 100) 1]) (replay 2 (snapAddPayment (snapSetScholarship (snapAddFeeSchedule (snapAddStudent (snapAddStudent Snapshot.empty 5 "SV1") 6 "SV2") "2024-1" B 10) 5 p) 5 "2024-1" (B - B * p / 100) 1) (initState 1)) ∧
    (run (initState 1) [.registerStudent 5 "SV1", .registerStudent 6 "SV2", .setFeeSchedule "2024-1" B 10 0, .applyScholarship 5 p true, .payTuition 5 "2024-1" (B - B * p / 100) 1]).totalRefunded =
      (replay 2 (snapAddPayment (snapSetScholarship (snapAddFeeSchedule (snapAddStudent (snapAddStudent Snapshot.empty 5 "SV1") 6 "SV2") "2024-1" B 10) 5 p) 5 "2024-1" (B - B * p / 100) 1) (initState 1)).totalRefunded ∧
    LedgerEqIgnTs (run (initState 1) [.registerStudent 5 "SV1", .registerStudent 6 "SV2", .setFeeSchedule "2024-1" B 10 0, .payTuition 5 "2024-1" B 1, .applyScholarship 5 p true]) (replay 2 (snapSetScholarship (snapAddPayment (snapAddFeeSchedule (snapAddStudent (snapAddStudent Snapshot.empty 5 "SV1") 6 "SV2") "2024-1" B 10) 5 "2024-1" B 1) 5 p) (initState 1)) ∧
    (replay 2 (snapSetScholarship (snapAddPayment (snapAddFeeSchedule (snapAddStudent (snapAddStudent Snapshot.empty 5 "SV1") 6 "SV2") "2024-1" B 10) 5 "2024-1" B 1) 5 p) (initState 1)).totalRefunded = 0 ∧
    (run (initState 1) [.registerStudent 5 "SV1", .registerStudent 6 "SV2", .setFeeSchedule "2024-1" B 10 0, .payTuition 5 "2024-1" B 1, .applyScholarship 5 p true]).totalRefunded = B * p / 100 := by
  have hB0 : B ≠ 0 := by omega
  have hqB : B * p / 100 ≤ B := by
    have h1 : B * p ≤ B * 100 := Nat.mul_le_mul_left B hp
    have h2 : B * p / 100 ≤ B * 100 / 100 := Nat.div_le_div_right h1
    have h3 : B * 100 / 100 = B := by omega
    omega
  have eA1 : step (initState 1) (.registerStudent 5 "SV1") = { universityWallet := 1, paymentCounter := 0, totalCollected := 0, totalRefunded := 0, payments := fun _ => Payment.zero, students := upd (fun _ => Student.zero) 5 { studentId := "SV1", walletAddress := 5, scholarshipPercent := 0, isRegistered := true }, studentIdToAddress := upd (fun _ => 0) "SV1" 5, feeSchedules := fun _ => FeeSchedule.zero, studentSemesterPayment := fun _ _ => 0, studentPaymentIds := fun _ => [], activeSemesters := [], registeredStudents := [5], balance := 0 } := rfl
  have eA2 : step { universityWallet := 1, paymentCounter := 0, totalCollected := 0, totalRefunded := 0, payments := fun _ => Payment.zero, students := upd (fun _ => Student.zero) 5 { studentId := "SV1", walletAddress := 5, scholarshipPercent := 0, isRegistered := true }, studentIdToAddress := upd (fun _ => 0) "SV1" 5, feeSchedules := fun _ => FeeSchedule.zero, studentSemesterPayment := fun _ _ => 0, studentPaymentIds := fun _ => [], activeSemesters := [], registeredStudents := [5], balance := 0 } (.registerStudent 6 "SV2") = { universityWallet := 1, paymentCounter := 0, totalCollected := 0, totalRefunded := 0, payments := fun _ => Payment.zero, students := upd (upd (fun _ => Student.zero) 5 { studentId := "SV1", walletAddress := 5, scholarshipPercent := 0, isRegistered := true }) 6 { studentId := "SV2", walletAddress := 6, scholarshipPercent := 0, isRegistered := true }, studentIdToAddress := upd (upd (fun _ => 0) "SV1" 5) "SV2" 6, feeSchedules := fun _ => FeeSchedule.zero, studentSemesterPayment := fun _ _ => 0, studentPaymentIds := fun _ => [], activeSemesters := [], registeredStudents := [5, 6], balance := 0 } := rfl
  have eA3 : step { universityWallet := 1, paymentCounter := 0, totalCollected := 0, totalRefunded := 0, payments := fun _ => Payment.zero, students := upd (upd (fun _ => Student.zero) 5 { studentId := "SV1", walletAddress := 5, scholarshipPercent := 0, isRegistered := true }) 6 { studentId := "SV2", walletAddress := 6, scholarshipPercent := 0, isRegistered := true }, studentIdToAddress := upd (upd (fun _ => 0) "SV1" 5) "SV2" 6, feeSchedules := fun _ => FeeSchedule.zero, studentSemesterPayment := fun _ _ => 0, studentPaymentIds := fun _ => [], activeSemesters := [], registeredStudents := [5, 6], balance := 0 } (.setFeeSchedule "2024-1" B 10 0) = { universityWallet := 1, paymentCounter := 0, totalCollected := 0, totalRefunded := 0, payments := fun _ => Payment.zero, students := upd (upd (fun _ => Student.zero) 5 { studentId := "SV1", walletAddress := 5, scholarshipPercent := 0, isRegistered := true }) 6 { studentId := "SV2", walletAddress := 6, scholarshipPercent := 0, isRegistered := true }, studentIdToAddress := upd (upd (fun _ => 0) "SV1" 5) "SV2" 6, feeSchedules := upd (fun _ => FeeSchedule.zero) "2024-1" { semester := "2024-1", baseAmount := B, deadline := 10, isActive := true }, studentSemesterPayment := fun _ _ => 0, studentPaymentIds := fun _ => [], activeSemesters := ["2024-1"], registeredStudents := [5, 6], balance := 0 } :=
    step_ok (setFeeSchedule_ok hB0 (by decide))
  have hschA : applyScholarship { universityWallet := 1, paymentCounter := 0, totalCollected := 0, totalRefunded := 0, payments := fun _ => Payment.zero, students := upd (upd (fun _ => Student.zero) 5 { studentId := "SV1", walletAddress := 5, scholarshipPercent := 0, isRegistered := true }) 6 { studentId := "SV2", walletAddress := 6, scholarshipPercent := 0, isRegistered := true }, studentIdToAddress := upd (upd (fun _ => 0) "SV1" 5) "SV2" 6, feeSchedules := upd (fun _ => FeeSchedule.zero) "2024-1" { semester := "2024-1", baseAmount := B, deadline := 10, isActive := true }, studentSemesterPayment := fun _ _ => 0, studentPaymentIds := fun _ => [], activeSemesters := ["2024-1"], registeredStudents := [5, 6], balance := 0 } 5 p true = .ok { universityWallet := 1, paymentCounter := 0, totalCollected := 0, totalRefunded := 0, payments := fun _ => Payment.zero, students := upd (upd (upd (fun _ => Student.zero) 5 { studentId := "SV1", walletAddress := 5, scholarshipPercent := 0, isRegistered := true }) 6 { studentId := "SV2", walletAddress := 6, scholarshipPercent := 0, isRegistered := true }) 5 { studentId := "SV1", walletAddress := 5, scholarshipPercent := p, isRegistered := true }, studentIdToAddress := upd (upd (fun _ => 0) "SV1" 5) "SV2" 6, feeSchedules := upd (fun _ => FeeSchedule.zero) "2024-1" { semester := "2024-1", baseAmount := B, deadline := 10, isActive := true }, studentSemesterPayment := fun _ _ => 0, studentPaymentIds := fun _ => [], activeSemesters := ["2024-1"], registeredStudents := [5, 6], balance := 0 } := by
    rcases Nat.eq_zero_or_pos p with hp0 | hp0
    · exact applyScholarship_noIncrease rfl (by omega) (by omega)
    · exact applyScholarship_noRefund rfl (by omega) hp0 rfl
  have eA4 : step { universityWallet := 1, paymentCounter := 0, totalCollected := 0, totalRefunded := 0, payments := fun _ => Payment.zero, students := upd (upd (fun _ => Student.zero) 5 { studentId := "SV1", walletAddress := 5, scholarshipPercent := 0, isRegistered := true }) 6 { studentId := "SV2", walletAddress := 6, scholarshipPercent := 0, isRegistered := true }, studentIdToAddress := upd (upd (fun _ => 0) "SV1" 5) "SV2" 6, feeSchedules := upd (fun _ => FeeSchedule.zero) "2024-1" { semester := "2024-1", baseAmount := B, deadline := 10, isActive := true }, studentSemesterPayment := fun _ _ => 0, studentPaymentIds := fun _ => [], activeSemesters := ["2024-1"], registeredStudents := [5, 6], balance := 0 } (.applyScholarship 5 p true) = { universityWallet := 1, paymentCounter := 0, totalCollected := 0, totalRefunded := 0, payments := fun _ => Payment.zero, students := upd (upd (upd (fun _ => Student.zero) 5 { studentId := "SV1", walletAddress := 5, scholarshipPercent := 0, isRegistered := true }) 6 { studentId := "SV2", walletAddress := 6, scholarshipPercent := 0, isRegistered := true }) 5 { studentId := "SV1", walletAddress := 5, scholarshipPercent := p, isRegistered := true }, studentIdToAddress := upd (upd (fun _ => 0) "SV1" 5) "SV2" 6, feeSchedules := upd (fun _ => FeeSchedule.zero) "2024-1" { semester := "2024-1", baseAmount := B, deadline := 10, isActive := true }, studentSemesterPayment := fun _ _ => 0, studentPaymentIds := fun _ => [], activeSemesters := ["2024-1"], registeredStudents := [5, 6], balance := 0 } := step_ok hschA
  have hcfA : calculateFee { universityWallet := 1, paymentCounter := 0, totalCollected := 0, totalRefunded := 0, payments := fun _ => Payment.zero, students := upd (upd (upd (fun _ => Student.zero) 5 { studentId := "SV1", walletAddress := 5, scholarshipPercent := 0, isRegistered := true }) 6 { studentId := "SV2", walletAddress := 6, scholarshipPercent := 0, isRegistered := true }) 5 { studentId := "SV1", walletAddress := 5, scholarshipPercent := p, isRegistered := true }, studentIdToAddress := upd (upd (fun _ => 0) "SV1" 5) "SV2" 6, feeSchedules := upd (fun _ => FeeSchedule.zero) "2024-1" { semester := "2024-1", baseAmount := B, deadline := 10, isActive := true }, studentSemesterPayment := fun _ _ => 0, studentPaymentIds := fun _ => [], activeSemesters := ["2024-1"], registeredStudents := [5, 6], balance := 0 } 5 "2024-1" = B - B * p / 100 :=
    calculateFee_formula { universityWallet := 1, paymentCounter := 0, totalCollected := 0, totalRefunded := 0, payments := fun _ => Payment.zero, students := upd (upd (upd (fun _ => Student.zero) 5 { studentId := "SV1", walletAddress := 5, scholarshipPercent := 0, isRegistered := true }) 6 { studentId := "SV2", walletAddress := 6, scholarshipPercent := 0, isRegistered := true }) 5 { studentId := "SV1", walletAddress := 5, scholarshipPercent := p, isRegistered := true }, studentIdToAddress := upd (upd (fun _ => 0) "SV1" 5) "SV2" 6, feeSchedules := upd (fun _ => FeeSchedule.zero) "2024-1" { semester := "2024-1", baseAmount := B, deadline := 10, isActive := true }, studentSemesterPayment := fun _ _ => 0, studentPaymentIds := fun _ => [], activeSemesters := ["2024-1"], registeredStudents := [5, 6], balance := 0 } 5 "2024-1"
  have eA5 : step { universityWallet := 1, paymentCounter := 0, totalCollected := 0, totalRefunded := 0, payments := fun _ => Payment.zero, students := upd (upd (upd (fun _ => Student.zero) 5 { studentId := "SV1", walletAddress := 5, scholarshipPercent := 0, isRegistered := true }) 6 { studentId := "SV2", walletAddress := 6, scholarshipPercent := 0, isRegistered := true }) 5 { studentId := "SV1", walletAddress := 5, scholarshipPercent := p, isRegistered := true }, studentIdToAddress := upd (upd (fun _ => 0) "SV1" 5) "SV2" 6, feeSchedules := upd (fun _ => FeeSchedule.zero) "2024-1" { semester := "2024-1", baseAmount := B, deadline := 10, isActive := true }, studentSemesterPayment := fun _ _ => 0, studentPaymentIds := fun _ => [], activeSemesters := ["2024-1"], registeredStudents := [5, 6], balance := 0 } (.payTuition 5 "2024-1" (B - B * p / 100) 1) = { universityWallet := 1, paymentCounter := 1, totalCollected := 0 + (B - B * p / 100), totalRefunded := 0, payments := upd (fun _ => Payment.zero) 1 { student := 5, studentId := "SV1", semester := "2024-1", amount := (B - B * p / 100), amountAfterRefund := (B - B * p / 100), timestamp := 1, paid := true, refunded := false }, students := upd (upd (upd (fun _ => Student.zero) 5 { studentId := "SV1", walletAddress := 5, scholarshipPercent := 0, isRegistered := true }) 6 { studentId := "SV2", walletAddress := 6, scholarshipPercent := 0, isRegistered := true }) 5 { studentId := "SV1", walletAddress := 5, scholarshipPercent := p, isRegistered := true }, studentIdToAddress := upd (upd (fun _ => 0) "SV1" 5) "SV2" 6, feeSchedules := upd (fun _ => FeeSchedule.zero) "2024-1" { semester := "2024-1", baseAmount := B, deadline := 10, isActive := true }, studentSemesterPayment := upd (fun _ _ => 0) 5 (upd (fun _ => 0) "2024-1" 1), studentPaymentIds := upd (fun _ => []) 5 [1], activeSemesters := ["2024-1"], registeredStudents := [5, 6], balance := 0 + (B - B * p / 100) } :=
    step_ok (payTuition_ok rfl rfl rfl (by rw [hcfA]; omega))
  have erA : run (initState 1) [.registerStudent 5 "SV1", .registerStudent 6 "SV2", .setFeeSchedule "2024-1" B 10 0, .applyScholarship 5 p true, .payTuition 5 "2024-1" (B - B * p / 100) 1] = { universityWallet := 1, paymentCounter := 1, totalCollected := 0 + (B - B * p / 100), totalRefunded := 0, payments := upd (fun _ => Payment.zero) 1 { student := 5, studentId := "SV1", semester := "2024-1", amount := (B - B * p / 100), amountAfterRefund := (B - B * p / 100), timestamp := 1, paid := true, refunded := false }, students := upd (upd (upd (fun _ => Student.zero) 5 { studentId := "SV1", walletAddress := 5, scholarshipPercent := 0, isRegistered := true }) 6 { studentId := "SV2", walletAddress := 6, scholarshipPercent := 0, isRegistered := true }) 5 { studentId := "SV1", walletAddress := 5, scholarshipPercent := p, isRegistered := true }, studentIdToAddress := upd (upd (fun _ => 0) "SV1" 5) "SV2" 6, feeSchedules := upd (fun _ => FeeSchedule.zero) "2024-1" { semester := "2024-1", baseAmount := B, deadline := 10, isActive := true }, studentSemesterPayment := upd (fun _ _ => 0) 5 (upd (fun _ => 0) "2024-1" 1), studentPaymentIds := upd (fun _ => []) 5 [1], activeSemesters := ["2024-1"], registeredStudents := [5, 6], balance := 0 + (B - B * p / 100) } := by
    simp only [run, List.foldl_cons, List.foldl_nil]
    rw [eA1, eA2, eA3, eA4, eA5]
  have hsnapA : (snapAddPayment (snapSetScholarship (snapAddFeeSchedule (snapAddStudent (snapAddStudent Snapshot.empty 5 "SV1") 6 "SV2") "2024-1" B 10) 5 p) 5 "2024-1" (B - B * p / 100) 1) = (⟨[⟨5, "SV1"⟩, ⟨6, "SV2"⟩], [⟨"2024-1", B, 10⟩], [⟨5, p⟩], [⟨5, "2024-1", (B - B * p / 100), 1⟩]⟩ : Snapshot) := rfl
  have h1eq : replayFee 2 (initState 1) ⟨"2024-1", B, 10⟩ = { universityWallet := 1, paymentCounter := 0, totalCollected := 0, totalRefunded := 0, payments := fun _ => Payment.zero, students := fun _ => Student.zero, studentIdToAddress := fun _ => 0, feeSchedules := upd (fun _ => FeeSchedule.zero) "2024-1" { semester := "2024-1", baseAmount := B, deadline := 10, isActive := true }, studentSemesterPayment := fun _ _ => 0, studentPaymentIds := fun _ => [], activeSemesters := ["2024-1"], registeredStudents := [], balance := 0 } :=
    replayFee_ok (setFeeSchedule_ok hB0 (show (2:Nat) < adjustDeadline 2 10 by decide))
  have h2eq : replayStudent { universityWallet := 1, paymentCounter := 0, totalCollected := 0, totalRefunded := 0, payments := fun _ => Payment.zero, students := fun _ => Student.zero, studentIdToAddress := fun _ => 0, feeSchedules := upd (fun _ => FeeSchedule.zero) "2024-1" { semester := "2024-1", baseAmount := B, deadline := 10, isActive := true }, studentSemesterPayment := fun _ _ => 0, studentPaymentIds := fun _ => [], activeSemesters := ["2024-1"], registeredStudents := [], balance := 0 } ⟨5, "SV1"⟩ = { universityWallet := 1, paymentCounter := 0, totalCollected := 0, totalRefunded := 0, payments := fun _ => Payment.zero, students := upd (fun _ => Student.zero) 5 { studentId := "SV1", walletAddress := 5, scholarshipPercent := 0, isRegistered := true }, studentIdToAddress := upd (fun _ => 0) "SV1" 5, feeSchedules := upd (fun _ => FeeSchedule.zero) "2024-1" { semester := "2024-1", baseAmount := B, deadline := 10, isActive := true }, studentSemesterPayment := fun _ _ => 0, studentPaymentIds := fun _ => [], activeSemesters := ["2024-1"], registeredStudents := [5], balance := 0 } := rfl
  have h3eq : replayStudent { universityWallet := 1, paymentCounter := 0, totalCollected := 0, totalRefunded := 0, payments := fun _ => Payment.zero, students := upd (fun _ => Student.zero) 5 { studentId := "SV1", walletAddress := 5, scholarshipPercent := 0, isRegistered := true }, studentIdToAddress := upd (fun _ => 0) "SV1" 5, feeSchedules := upd (fun _ => FeeSchedule.zero) "2024-1" { semester := "2024-1", baseAmount := B, deadline := 10, isActive := true }, studentSemesterPayment := fun _ _ => 0, studentPaymentIds := fun _ => [], activeSemesters := ["2024-1"], registeredStudents := [5], balance := 0 } ⟨6, "SV2"⟩ = { universityWallet := 1, paymentCounter := 0, totalCollected := 0, totalRefunded := 0, payments := fun _ => Payment.zero, students := upd (upd (fun _ => Student.zero) 5 { studentId := "SV1", walletAddress := 5, scholarshipPercent := 0, isRegistered := true }) 6 { studentId := "SV2", walletAddress := 6, scholarshipPercent := 0, isRegistered := true }, studentIdToAddress := upd (upd (fun _ => 0) "SV1" 5) "SV2" 6, feeSchedules := upd (fun _ => FeeSchedule.zero) "2024-1" { semester := "2024-1", baseAmount := B, deadline := 10, isActive := true }, studentSemesterPayment := fun _ _ => 0, studentPaymentIds := fun _ => [], activeSemesters := ["2024-1"], registeredStudents := [5, 6], balance := 0 } := rfl
  have hschH : applyScholarship { universityWallet := 1, paymentCounter := 0, totalCollected := 0, totalRefunded := 0, payments := fun _ => Payment.zero, students := upd (upd (fun _ => Student.zero) 5 { studentId := "SV1", walletAddress := 5, scholarshipPercent := 0, isRegistered := true }) 6 { studentId := "SV2", walletAddress := 6, scholarshipPercent := 0, isRegistered := true }, studentIdToAddress := upd (upd (fun _ => 0) "SV1" 5) "SV2" 6, feeSchedules := upd (fun _ => FeeSchedule.zero) "2024-1" { semester := "2024-1", baseAmount := B, deadline := 10, isActive := true }, studentSemesterPayment := fun _ _ => 0, studentPaymentIds := fun _ => [], activeSemesters := ["2024-1"], registeredStudents := [5, 6], balance := 0 } 5 p true = .ok { universityWallet := 1, paymentCounter := 0, totalCollected := 0, totalRefunded := 0, payments := fun _ => Payment.zero, students := upd (upd (upd (fun _ => Student.zero) 5 { studentId := "SV1", walletAddress := 5, scholarshipPercent := 0, isRegistered := true }) 6 { studentId := "SV2", walletAddress := 6, scholarshipPercent := 0, isRegistered := true }) 5 { studentId := "SV1", walletAddress := 5, scholarshipPercent := p, isRegistered := true }, studentIdToAddress := upd (upd (fun _ => 0) "SV1" 5) "SV2" 6, feeSchedules := upd (fun _ => FeeSchedule.zero) "2024-1" { semester := "2024-1", baseAmount := B, deadline := 10, isActive := true }, studentSemesterPayment := fun _ _ => 0, studentPaymentIds := fun _ => [], activeSemesters := ["2024-1"], registeredStudents := [5, 6], balance := 0 } := by
    rcases Nat.eq_zero_or_pos p with hp0 | hp0
    · exact applyScholarship_noIncrease rfl (by omega) (by omega)
    · exact applyScholarship_noRefund rfl (by omega) hp0 rfl
  have h4eq : replayScholarship { universityWallet := 1, paymentCounter := 0, totalCollected := 0, totalRefunded := 0, payments := fun _ => Payment.zero, students := upd (upd (fun _ => Student.zero) 5 { studentId := "SV1", walletAddress := 5, scholarshipPercent := 0, isRegistered := true }) 6 { studentId := "SV2", walletAddress := 6, scholarshipPercent := 0, isRegistered := true }, studentIdToAddress := upd (upd (fun _ => 0) "SV1" 5) "SV2" 6, feeSchedules := upd (fun _ => FeeSchedule.zero) "2024-1" { semester := "2024-1", baseAmount := B, deadline := 10, isActive := true }, studentSemesterPayment := fun _ _ => 0, studentPaymentIds := fun _ => [], activeSemesters := ["2024-1"], registeredStudents := [5, 6], balance := 0 } ⟨5, p⟩ = { universityWallet := 1, paymentCounter := 0, totalCollected := 0, totalRefunded := 0, payments := fun _ => Payment.zero, students := upd (upd (upd (fun _ => Student.zero) 5 { studentId := "SV1", walletAddress := 5, scholarshipPercent := 0, isRegistered := true }) 6 { studentId := "SV2", walletAddress := 6, scholarshipPercent := 0, isRegistered := true }) 5 { studentId := "SV1", walletAddress := 5, scholarshipPercent := p, isRegistered := true }, studentIdToAddress := upd (upd (fun _ => 0) "SV1" 5) "SV2" 6, feeSchedules := upd (fun _ => FeeSchedule.zero) "2024-1" { semester := "2024-1", baseAmount := B, deadline := 10, isActive := true }, studentSemesterPayment := fun _ _ => 0, studentPaymentIds := fun _ => [], activeSemesters := ["2024-1"], registeredStudents := [5, 6], balance := 0 } := replayScholarship_ok hschH
  have h5eqA : replayPayment { universityWallet := 1, paymentCounter := 0, totalCollected := 0, totalRefunded := 0, payments := fun _ => Payment.zero, students := upd (upd (upd (fun _ => Student.zero) 5 { studentId := "SV1", walletAddress := 5, scholarshipPercent := 0, isRegistered := true }) 6 { studentId := "SV2", walletAddress := 6, scholarshipPercent := 0, isRegistered := true }) 5 { studentId := "SV1", walletAddress := 5, scholarshipPercent := p, isRegistered := true }, studentIdToAddress := upd (upd (fun _ => 0) "SV1" 5) "SV2" 6, feeSchedules := upd (fun _ => FeeSchedule.zero) "2024-1" { semester := "2024-1", baseAmount := B, deadline := 10, isActive := true }, studentSemesterPayment := fun _ _ => 0, studentPaymentIds := fun _ => [], activeSemesters := ["2024-1"], registeredStudents := [5, 6], balance := 0 } ⟨5, "2024-1", (B - B * p / 100), 1⟩ = { universityWallet := 1, paymentCounter := 1, totalCollected := 0 + (B - B * p / 100), totalRefunded := 0, payments := upd (fun _ => Payment.zero) 1 { student := 5, studentId := "SV1", semester := "2024-1", amount := (B - B * p / 100), amountAfterRefund := (B - B * p / 100), timestamp := 1, paid := true, refunded := false }, students := upd (upd (upd (fun _ => Student.zero) 5 { studentId := "SV1", walletAddress := 5, scholarshipPercent := 0, isRegistered := true }) 6 { studentId := "SV2", walletAddress := 6, scholarshipPercent := 0, isRegistered := true }) 5 { studentId := "SV1", walletAddress := 5, scholarshipPercent := p, isRegistered := true }, studentIdToAddress := upd (upd (fun _ => 0) "SV1" 5) "SV2" 6, feeSchedules := upd (fun _ => FeeSchedule.zero) "2024-1" { semester := "2024-1", baseAmount := B, deadline := 10, isActive := true }, studentSemesterPayment := upd (fun _ _ => 0) 5 (upd (fun _ => 0) "2024-1" 1), studentPaymentIds := upd (fun _ => []) 5 [1], activeSemesters := ["2024-1"], registeredStudents := [5, 6], balance := 0 } :=
    replayPayment_ok (restorePayment_ok_le rfl rfl (Nat.lt_irrefl _))
  have erpA : replay 2 (snapAddPayment (snapSetScholarship (snapAddFeeSchedule (snapAddStudent (snapAddStudent Snapshot.empty 5 "SV1") 6 "SV2") "2024-1" B 10) 5 p) 5 "2024-1" (B - B * p / 100) 1) (initState 1) = { universityWallet := 1, paymentCounter := 1, totalCollected := 0 + (B - B * p / 100), totalRefunded := 0, payments := upd (fun _ => Payment.zero) 1 { student := 5, studentId := "SV1", semester := "2024-1", amount := (B - B * p / 100), amountAfterRefund := (B - B * p / 100), timestamp := 1, paid := true, refunded := false }, students := upd (upd (upd (fun _ => Student.zero) 5 { studentId := "SV1", walletAddress := 5, scholarshipPercent := 0, isRegistered := true }) 6 { studentId := "SV2", walletAddress := 6, scholarshipPercent := 0, isRegistered := true }) 5 { studentId := "SV1", walletAddress := 5, scholarshipPercent := p, isRegistered := true }, studentIdToAddress := upd (upd (fun _ => 0) "SV1" 5) "SV2" 6, feeSchedules := upd (fun _ => FeeSchedule.zero) "2024-1" { semester := "2024-1", baseAmount := B, deadline := 10, isActive := true }, studentSemesterPayment := upd (fun _ _ => 0) 5 (upd (fun _ => 0) "2024-1" 1), studentPaymentIds := upd (fun _ => []) 5 [1], activeSemesters := ["2024-1"], registeredStudents := [5, 6], balance := 0 } := by
    rw [hsnapA]
    simp only [replay, List.foldl_cons, List.foldl_nil]
    rw [h1eq, h2eq, h3eq, h4eq, h5eqA]
  have eB4 : step { universityWallet := 1, paymentCounter := 0, totalCollected := 0, totalRefunded := 0, payments := fun _ => Payment.zero, students := upd (upd (fun _ => Student.zero) 5 { studentId := "SV1", walletAddress := 5, scholarshipPercent := 0, isRegistered := true }) 6 { studentId := "SV2", walletAddress := 6, scholarshipPercent := 0, isRegistered := true }, studentIdToAddress := upd (upd (fun _ => 0) "SV1" 5) "SV2" 6, feeSchedules := upd (fun _ => FeeSchedule.zero) "2024-1" { semester := "2024-1", baseAmount := B, deadline := 10, isActive := true }, studentSemesterPayment := fun _ _ => 0, studentPaymentIds := fun _ => [], activeSemesters := ["2024-1"], registeredStudents := [5, 6], balance := 0 } (.payTuition 5 "2024-1" B 1) = { universityWallet := 1, paymentCounter := 1, totalCollected := 0 + B, totalRefunded := 0, payments := upd (fun _ => Payment.zero) 1 { student := 5, studentId := "SV1", semester := "2024-1", amount := B, amountAfterRefund := B, timestamp := 1, paid := true, refunded := false }, students := upd (upd (fun _ => Student.zero) 5 { studentId := "SV1", walletAddress := 5, scholarshipPercent := 0, isRegistered := true }) 6 { studentId := "SV2", walletAddress := 6, scholarshipPercent := 0, isRegistered := true }, studentIdToAddress := upd (upd (fun _ => 0) "SV1" 5) "SV2" 6, feeSchedules := upd (fun _ => FeeSchedule.zero) "2024-1" { semester := "2024-1", baseAmount := B, deadline := 10, isActive := true }, studentSemesterPayment := upd (fun _ _ => 0) 5 (upd (fun _ => 0) "2024-1" 1), studentPaymentIds := upd (fun _ => []) 5 [1], activeSemesters := ["2024-1"], registeredStudents := [5, 6], balance := 0 + B } :=
    step_ok (payTuition_ok rfl rfl rfl (Nat.lt_irrefl B))
  have hsnapB : (snapSetScholarship (snapAddPayment (snapAddFeeSchedule (snapAddStudent (snapAddStudent Snapshot.empty 5 "SV1") 6 "SV2") "2024-1" B 10) 5 "2024-1" B 1) 5 p) = (⟨[⟨5, "SV1"⟩, ⟨6, "SV2"⟩], [⟨"2024-1", B, 10⟩], [⟨5, p⟩], [⟨5, "2024-1", B, 1⟩]⟩ : Snapshot) := rfl
  refine ⟨?_, ?_, ?_⟩
  · rw [erA, erpA]
    exact ⟨rfl, rfl, fun i => paymentEqIgnTs_refl _, fun w => rfl, fun sid => rfl,
          fun sem => ⟨rfl, rfl, rfl⟩, fun a sem => rfl, fun a => rfl, rfl, rfl⟩
  · rw [erA, erpA]
  · rcases Nat.eq_zero_or_pos (B * p / 100) with hq | hq
    · have eB5 : step { universityWallet := 1, paymentCounter := 1, totalCollected := 0 + B, totalRefunded := 0, payments := upd (fun _ => Payment.zero) 1 { student := 5, studentId := "SV1", semester := "2024-1", amount := B, amountAfterRefund := B, timestamp := 1, paid := true, refunded := false }, students := upd (upd (fun _ => Student.zero) 5 { studentId := "SV1", walletAddress := 5, scholarshipPercent := 0, isRegistered := true }) 6 { studentId := "SV2", walletAddress := 6, scholarshipPercent := 0, isRegistered := true }, studentIdToAddress := upd (upd (fun _ => 0) "SV1" 5) "SV2" 6, feeSchedules := upd (fun _ => FeeSchedule.zero) "2024-1" { semester := "2024-1", baseAmount := B, deadline := 10, isActive := true }, studentSemesterPayment := upd (fun _ _ => 0) 5 (upd (fun _ => 0) "2024-1" 1), studentPaymentIds := upd (fun _ => []) 5 [1], activeSemesters := ["2024-1"], registeredStudents := [5, 6], balance := 0 + B } (.applyScholarship 5 p true) = { universityWallet := 1, paymentCounter := 1, totalCollected := 0 + B, totalRefunded := 0, payments := upd (fun _ => Payment.zero) 1 { student := 5, studentId := "SV1", semester := "2024-1", amount := B, amountAfterRefund := B, timestamp := 1, paid := true, refunded := false }, students := upd (upd (upd (fun _ => Student.zero) 5 { studentId := "SV1", walletAddress := 5, scholarshipPercent := 0, isRegistered := true }) 6 { studentId := "SV2", walletAddress := 6, scholarshipPercent := 0, isRegistered := true }) 5 { studentId := "SV1", walletAddress := 5, scholarshipPercent := p, isRegistered := true }, studentIdToAddress := upd (upd (fun _ => 0) "SV1" 5) "SV2" 6, feeSchedules := upd (fun _ => FeeSchedule.zero) "2024-1" { semester := "2024-1", baseAmount := B, deadline := 10, isActive := true }, studentSemesterPayment := upd (fun _ _ => 0) 5 (upd (fun _ => 0) "2024-1" 1), studentPaymentIds := upd (fun _ => []) 5 [1], activeSemesters := ["2024-1"], registeredStudents := [5, 6], balance := 0 + B } := by
        rcases Nat.eq_zero_or_pos p with hp0 | hp0
        · exact step_ok (applyScholarship_noIncrease rfl (by omega) (by omega))
        · refine step_ok (applyScholarship_noRefund rfl (by omega) hp0 ?_)
          exact scholarshipStep_noDelta _ _ _ _ 1
            (show ¬ (B - B * p / 100 < B - B * 0 / 100) by omega)
      have erB : run (initState 1) [.registerStudent 5 "SV1", .registerStudent 6 "SV2", .setFeeSchedule "2024-1" B 10 0, .payTuition 5 "2024-1" B 1, .applyScholarship 5 p true] = { universityWallet := 1, paymentCounter := 1, totalCollected := 0 + B, totalRefunded := 0, payments := upd (fun _ => Payment.zero) 1 { student := 5, studentId := "SV1", semester := "2024-1", amount := B, amountAfterRefund := B, timestamp := 1, paid := true, refunded := false }, students := upd (upd (upd (fun _ => Student.zero) 5 { studentId := "SV1", walletAddress := 5, scholarshipPercent := 0, isRegistered := true }) 6 { studentId := "SV2", walletAddress := 6, scholarshipPercent := 0, isRegistered := true }) 5 { studentId := "SV1", walletAddress := 5, scholarshipPercent := p, isRegistered := true }, studentIdToAddress := upd (upd (fun _ => 0) "SV1" 5) "SV2" 6, feeSchedules := upd (fun _ => FeeSchedule.zero) "2024-1" { semester := "2024-1", baseAmount := B, deadline := 10, isActive := true }, studentSemesterPayment := upd (fun _ _ => 0) 5 (upd (fun _ => 0) "2024-1" 1), studentPaymentIds := upd (fun _ => []) 5 [1], activeSemesters := ["2024-1"], registeredStudents := [5, 6], balance := 0 + B } := by
        simp only [run, List.foldl_cons, List.foldl_nil]
        rw [eA1, eA2, eA3, eB4, eB5]
      have h4eqB : replayScholarship { universityWallet := 1, paymentCounter := 0, totalCollected := 0, totalRefunded := 0, payments := fun _ => Payment.zero, students := upd (upd (fun _ => Student.zero) 5 { studentId := "SV1", walletAddress := 5, scholarshipPercent := 0, isRegistered := true }) 6 { studentId := "SV2", walletAddress := 6, scholarshipPercent := 0, isRegistered := true }, studentIdToAddress := upd (upd (fun _ => 0) "SV1" 5) "SV2" 6, feeSchedules := upd (fun _ => FeeSchedule.zero) "2024-1" { semester := "2024-1", baseAmount := B, deadline := 10, isActive := true }, studentSemesterPayment := fun _ _ => 0, studentPaymentIds := fun _ => [], activeSemesters := ["2024-1"], registeredStudents := [5, 6], balance := 0 } ⟨5, p⟩ = { universityWallet := 1, paymentCounter := 0, totalCollected := 0, totalRefunded := 0, payments := fun _ => Payment.zero, students := upd (upd (upd (fun _ => Student.zero) 5 { studentId := "SV1", walletAddress := 5, scholarshipPercent := 0, isRegistered := true }) 6 { studentId := "SV2", walletAddress := 6, scholarshipPercent := 0, isRegistered := true }) 5 { studentId := "SV1", walletAddress := 5, scholarshipPercent := p, isRegistered := true }, studentIdToAddress := upd (upd (fun _ => 0) "SV1" 5) "SV2" 6, feeSchedules := upd (fun _ => FeeSchedule.zero) "2024-1" { semester := "2024-1", baseAmount := B, deadline := 10, isActive := true }, studentSemesterPayment := fun _ _ => 0, studentPaymentIds := fun _ => [], activeSemesters := ["2024-1"], registeredStudents := [5, 6], balance := 0 } := replayScholarship_ok hschH
      have h5eqB : replayPayment { universityWallet := 1, paymentCounter := 0, totalCollected := 0, totalRefunded := 0, payments := fun _ => Payment.zero, students := upd (upd (upd (fun _ => Student.zero) 5 { studentId := "SV1", walletAddress := 5, scholarshipPercent := 0, isRegistered := true }) 6 { studentId := "SV2", walletAddress := 6, scholarshipPercent := 0, isRegistered := true }) 5 { studentId := "SV1", walletAddress := 5, scholarshipPercent := p, isRegistered := true }, studentIdToAddress := upd (upd (fun _ => 0) "SV1" 5) "SV2" 6, feeSchedules := upd (fun _ => FeeSchedule.zero) "2024-1" { semester := "2024-1", baseAmount := B, deadline := 10, isActive := true }, studentSemesterPayment := fun _ _ => 0, studentPaymentIds := fun _ => [], activeSemesters := ["2024-1"], registeredStudents := [5, 6], balance := 0 } ⟨5, "2024-1", B, 1⟩ = { universityWallet := 1, paymentCounter := 1, totalCollected := 0 + B, totalRefunded := 0, payments := upd (fun _ => Payment.zero) 1 { student := 5, studentId := "SV1", semester := "2024-1", amount := B, amountAfterRefund := B, timestamp := 1, paid := true, refunded := false }, students := upd (upd (upd (fun _ => Student.zero) 5 { studentId := "SV1", walletAddress := 5, scholarshipPercent := 0, isRegistered := true }) 6 { studentId := "SV2", walletAddress := 6, scholarshipPercent := 0, isRegistered := true }) 5 { studentId := "SV1", walletAddress := 5, scholarshipPercent := p, isRegistered := true }, studentIdToAddress := upd (upd (fun _ => 0) "SV1" 5) "SV2" 6, feeSchedules := upd (fun _ => FeeSchedule.zero) "2024-1" { semester := "2024-1", baseAmount := B, deadline := 10, isActive := true }, studentSemesterPayment := upd (fun _ _ => 0) 5 (upd (fun _ => 0) "2024-1" 1), studentPaymentIds := upd (fun _ => []) 5 [1], activeSemesters := ["2024-1"], registeredStudents := [5, 6], balance := 0 } :=
        replayPayment_ok (restorePayment_ok_le rfl rfl
          (show ¬ (B - B * p / 100 < B) by omega))
      have erpB : replay 2 (snapSetScholarship (snapAddPayment (snapAddFeeSchedule (snapAddStudent (snapAddStudent Snapshot.empty 5 "SV1") 6 "SV2") "2024-1" B 10) 5 "2024-1" B 1) 5 p) (initState 1) = { universityWallet := 1, paymentCounter := 1, totalCollected := 0 + B, totalRefunded := 0, payments := upd (fun _ => Payment.zero) 1 { student := 5, studentId := "SV1", semester := "2024-1", amount := B, amountAfterRefund := B, timestamp := 1, paid := true, refunded := false }, students := upd (upd (upd (fun _ => Student.zero) 5 { studentId := "SV1", walletAddress := 5, scholarshipPercent := 0, isRegistered := true }) 6 { studentId := "SV2", walletAddress := 6, scholarshipPercent := 0, isRegistered := true }) 5 { studentId := "SV1", walletAddress := 5, scholarshipPercent := p, isRegistered := true }, studentIdToAddress := upd (upd (fun _ => 0) "SV1" 5) "SV2" 6, feeSchedules := upd (fun _ => FeeSchedule.zero) "2024-1" { semester := "2024-1", baseAmount := B, deadline := 10, isActive := true }, studentSemesterPayment := upd (fun _ _ => 0) 5 (upd (fun _ => 0) "2024-1" 1), studentPaymentIds := upd (fun _ => []) 5 [1], activeSemesters := ["2024-1"], registeredStudents := [5, 6], balance := 0 } := by
        rw [hsnapB]
        simp only [replay, List.foldl_cons, List.foldl_nil]
        rw [h1eq, h2eq, h3eq, h4eqB, h5eqB]
      refine ⟨?_, ?_, ?_⟩
      · rw [erB, erpB]
        exact ⟨rfl, rfl, fun i => paymentEqIgnTs_refl _, fun w => rfl, fun sid => rfl,
          fun sem => ⟨rfl, rfl, rfl⟩, fun a sem => rfl, fun a => rfl, rfl, rfl⟩
      · rw [erpB]
      · rw [erB]
        show (0 : Nat) = B * p / 100
        omega
    · have hp0 : 0 < p := by
        rcases Nat.eq_zero_or_pos p with h | h
        · subst h
          simp at hq
        · exact h
      have hloopC : (({ universityWallet := 1, paymentCounter := 1, totalCollected := 0 + B, totalRefunded := 0, payments := upd (fun _ => Payment.zero) 1 { student := 5, studentId := "SV1", semester := "2024-1", amount := B, amountAfterRefund := B, timestamp := 1, paid := true, refunded := false }, students := upd (upd (fun _ => Student.zero) 5 { studentId := "SV1", walletAddress := 5, scholarshipPercent := 0, isRegistered := true }) 6 { studentId := "SV2", walletAddress := 6, scholarshipPercent := 0, isRegistered := true }, studentIdToAddress := upd (upd (fun _ => 0) "SV1" 5) "SV2" 6, feeSchedules := upd (fun _ => FeeSchedule.zero) "2024-1" { semester := "2024-1", baseAmount := B, deadline := 10, isActive := true }, studentSemesterPayment := upd (fun _ _ => 0) 5 (upd (fun _ => 0) "2024-1" 1), studentPaymentIds := upd (fun _ => []) 5 [1], activeSemesters := ["2024-1"], registeredStudents := [5, 6], balance := 0 + B } : State).studentPaymentIds 5).foldl
          (scholarshipStep ({ universityWallet := 1, paymentCounter := 1, totalCollected := 0 + B, totalRefunded := 0, payments := upd (fun _ => Payment.zero) 1 { student := 5, studentId := "SV1", semester := "2024-1", amount := B, amountAfterRefund := B, timestamp := 1, paid := true, refunded := false }, students := upd (upd (fun _ => Student.zero) 5 { studentId := "SV1", walletAddress := 5, scholarshipPercent := 0, isRegistered := true }) 6 { studentId := "SV2", walletAddress := 6, scholarshipPercent := 0, isRegistered := true }, studentIdToAddress := upd (upd (fun _ => 0) "SV1" 5) "SV2" 6, feeSchedules := upd (fun _ => FeeSchedule.zero) "2024-1" { semester := "2024-1", baseAmount := B, deadline := 10, isActive := true }, studentSemesterPayment := upd (fun _ _ => 0) 5 (upd (fun _ => 0) "2024-1" 1), studentPaymentIds := upd (fun _ => []) 5 [1], activeSemesters := ["2024-1"], registeredStudents := [5, 6], balance := 0 + B } : State).feeSchedules p
            (({ universityWallet := 1, paymentCounter := 1, totalCollected := 0 + B, totalRefunded := 0, payments := upd (fun _ => Payment.zero) 1 { student := 5, studentId := "SV1", semester := "2024-1", amount := B, amountAfterRefund := B, timestamp := 1, paid := true, refunded := false }, students := upd (upd (fun _ => Student.zero) 5 { studentId := "SV1", walletAddress := 5, scholarshipPercent := 0, isRegistered := true }) 6 { studentId := "SV2", walletAddress := 6, scholarshipPercent := 0, isRegistered := true }, studentIdToAddress := upd (upd (fun _ => 0) "SV1" 5) "SV2" 6, feeSchedules := upd (fun _ => FeeSchedule.zero) "2024-1" { semester := "2024-1", baseAmount := B, deadline := 10, isActive := true }, studentSemesterPayment := upd (fun _ _ => 0) 5 (upd (fun _ => 0) "2024-1" 1), studentPaymentIds := upd (fun _ => []) 5 [1], activeSemesters := ["2024-1"], registeredStudents := [5, 6], balance := 0 + B } : State).students 5).scholarshipPercent)
          (({ universityWallet := 1, paymentCounter := 1, totalCollected := 0 + B, totalRefunded := 0, payments := upd (fun _ => Payment.zero) 1 { student := 5, studentId := "SV1", semester := "2024-1", amount := B, amountAfterRefund := B, timestamp := 1, paid := true, refunded := false }, students := upd (upd (fun _ => Student.zero) 5 { studentId := "SV1", walletAddress := 5, scholarshipPercent := 0, isRegistered := true }) 6 { studentId := "SV2", walletAddress := 6, scholarshipPercent := 0, isRegistered := true }, studentIdToAddress := upd (upd (fun _ => 0) "SV1" 5) "SV2" 6, feeSchedules := upd (fun _ => FeeSchedule.zero) "2024-1" { semester := "2024-1", baseAmount := B, deadline := 10, isActive := true }, studentSemesterPayment := upd (fun _ _ => 0) 5 (upd (fun _ => 0) "2024-1" 1), studentPaymentIds := upd (fun _ => []) 5 [1], activeSemesters := ["2024-1"], registeredStudents := [5, 6], balance := 0 + B } : State).payments, 0) = (upd (upd (fun _ => Payment.zero) 1 { student := 5, studentId := "SV1", semester := "2024-1", amount := B, amountAfterRefund := B, timestamp := 1, paid := true, refunded := false }) 1 { student := 5, studentId := "SV1", semester := "2024-1", amount := B, amountAfterRefund := B - (if B < B - B * 0 / 100 - (B - B * p / 100) then B else B - B * 0 / 100 - (B - B * p / 100)), timestamp := 1, paid := true, refunded := false }, 0 + (if B < B - B * 0 / 100 - (B - B * p / 100) then B else B - B * 0 / 100 - (B - B * p / 100))) :=
        scholarshipStep_refund ({ universityWallet := 1, paymentCounter := 1, totalCollected := 0 + B, totalRefunded := 0, payments := upd (fun _ => Payment.zero) 1 { student := 5, studentId := "SV1", semester := "2024-1", amount := B, amountAfterRefund := B, timestamp := 1, paid := true, refunded := false }, students := upd (upd (fun _ => Student.zero) 5 { studentId := "SV1", walletAddress := 5, scholarshipPercent := 0, isRegistered := true }) 6 { studentId := "SV2", walletAddress := 6, scholarshipPercent := 0, isRegistered := true }, studentIdToAddress := upd (upd (fun _ => 0) "SV1" 5) "SV2" 6, feeSchedules := upd (fun _ => FeeSchedule.zero) "2024-1" { semester := "2024-1", baseAmount := B, deadline := 10, isActive := true }, studentSemesterPayment := upd (fun _ _ => 0) 5 (upd (fun _ => 0) "2024-1" 1), studentPaymentIds := upd (fun _ => []) 5 [1], activeSemesters := ["2024-1"], registeredStudents := [5, 6], balance := 0 + B } : State).feeSchedules p 0
          (({ universityWallet := 1, paymentCounter := 1, totalCollected := 0 + B, totalRefunded := 0, payments := upd (fun _ => Payment.zero) 1 { student := 5, studentId := "SV1", semester := "2024-1", amount := B, amountAfterRefund := B, timestamp := 1, paid := true, refunded := false }, students := upd (upd (fun _ => Student.zero) 5 { studentId := "SV1", walletAddress := 5, scholarshipPercent := 0, isRegistered := true }) 6 { studentId := "SV2", walletAddress := 6, scholarshipPercent := 0, isRegistered := true }, studentIdToAddress := upd (upd (fun _ => 0) "SV1" 5) "SV2" 6, feeSchedules := upd (fun _ => FeeSchedule.zero) "2024-1" { semester := "2024-1", baseAmount := B, deadline := 10, isActive := true }, studentSemesterPayment := upd (fun _ _ => 0) 5 (upd (fun _ => 0) "2024-1" 1), studentPaymentIds := upd (fun _ => []) 5 [1], activeSemesters := ["2024-1"], registeredStudents := [5, 6], balance := 0 + B } : State).payments, 0) 1 rfl (fun hc => Bool.noConfusion hc)
          hB (show B - B * p / 100 < B - B * 0 / 100 by omega)
      have hclean : ((upd (upd (fun _ => Payment.zero) 1 { student := 5, studentId := "SV1", semester := "2024-1", amount := B, amountAfterRefund := B, timestamp := 1, paid := true, refunded := false }) 1 { student := 5, studentId := "SV1", semester := "2024-1", amount := B, amountAfterRefund := B - (if B < B - B * 0 / 100 - (B - B * p / 100) then B else B - B * 0 / 100 - (B - B * p / 100)), timestamp := 1, paid := true, refunded := false } : Nat → Payment), 0 + (if B < B - B * 0 / 100 - (B - B * p / 100) then B else B - B * 0 / 100 - (B - B * p / 100))) =
          ((upd (upd (fun _ => Payment.zero) 1 { student := 5, studentId := "SV1", semester := "2024-1", amount := B, amountAfterRefund := B, timestamp := 1, paid := true, refunded := false }) 1 { student := 5, studentId := "SV1", semester := "2024-1", amount := B, amountAfterRefund := (B - B * p / 100), timestamp := 1, paid := true, refunded := false } : Nat → Payment), B * p / 100) := by
        have haar : B - (if B < B - B * 0 / 100 - (B - B * p / 100) then B else B - B * 0 / 100 - (B - B * p / 100)) = B - B * p / 100 := by split_ifs <;> omega
        have ht : 0 + (if B < B - B * 0 / 100 - (B - B * p / 100) then B else B - B * 0 / 100 - (B - B * p / 100)) = B * p / 100 := by split_ifs <;> omega
        simp only [Prod.mk.injEq]
        exact ⟨by rw [haar], ht⟩
      have eB5 : step { universityWallet := 1, paymentCounter := 1, totalCollected := 0 + B, totalRefunded := 0, payments := upd (fun _ => Payment.zero) 1 { student := 5, studentId := "SV1", semester := "2024-1", amount := B, amountAfterRefund := B, timestamp := 1, paid := true, refunded := false }, students := upd (upd (fun _ => Student.zero) 5 { studentId := "SV1", walletAddress := 5, scholarshipPercent := 0, isRegistered := true }) 6 { studentId := "SV2", walletAddress := 6, scholarshipPercent := 0, isRegistered := true }, studentIdToAddress := upd (upd (fun _ => 0) "SV1" 5) "SV2" 6, feeSchedules := upd (fun _ => FeeSchedule.zero) "2024-1" { semester := "2024-1", baseAmount := B, deadline := 10, isActive := true }, studentSemesterPayment := upd (fun _ _ => 0) 5 (upd (fun _ => 0) "2024-1" 1), studentPaymentIds := upd (fun _ => []) 5 [1], activeSemesters := ["2024-1"], registeredStudents := [5, 6], balance := 0 + B } (.applyScholarship 5 p true) = { universityWallet := 1, paymentCounter := 1, totalCollected := 0 + B, totalRefunded := 0 + B * p / 100, payments := upd (upd (fun _ => Payment.zero) 1 { student := 5, studentId := "SV1", semester := "2024-1", amount := B, amountAfterRefund := B, timestamp := 1, paid := true, refunded := false }) 1 { student := 5, studentId := "SV1", semester := "2024-1", amount := B, amountAfterRefund := (B - B * p / 100), timestamp := 1, paid := true, refunded := false }, students := upd (upd (upd (fun _ => Student.zero) 5 { studentId := "SV1", walletAddress := 5, scholarshipPercent := 0, isRegistered := true }) 6 { studentId := "SV2", walletAddress := 6, scholarshipPercent := 0, isRegistered := true }) 5 { studentId := "SV1", walletAddress := 5, scholarshipPercent := p, isRegistered := true }, studentIdToAddress := upd (upd (fun _ => 0) "SV1" 5) "SV2" 6, feeSchedules := upd (fun _ => FeeSchedule.zero) "2024-1" { semester := "2024-1", baseAmount := B, deadline := 10, isActive := true }, studentSemesterPayment := upd (fun _ _ => 0) 5 (upd (fun _ => 0) "2024-1" 1), studentPaymentIds := upd (fun _ => []) 5 [1], activeSemesters := ["2024-1"], registeredStudents := [5, 6], balance := 0 + B - B * p / 100 } :=
        step_ok (applyScholarship_commit rfl (by omega) hp0
          (hloopC.trans hclean) hq (show ¬ 0 + B < B * p / 100 by omega))
      have erB : run (initState 1) [.registerStudent 5 "SV1", .registerStudent 6 "SV2", .setFeeSchedule "2024-1" B 10 0, .payTuition 5 "2024-1" B 1, .applyScholarship 5 p true] = { universityWallet := 1, paymentCounter := 1, totalCollected := 0 + B, totalRefunded := 0 + B * p / 100, payments := upd (upd (fun _ => Payment.zero) 1 { student := 5, studentId := "SV1", semester := "2024-1", amount := B, amountAfterRefund := B, timestamp := 1, paid := true, refunded := false }) 1 { student := 5, studentId := "SV1", semester := "2024-1", amount := B, amountAfterRefund := (B - B * p / 100), timestamp := 1, paid := true, refunded := false }, students := upd (upd (upd (fun _ => Student.zero) 5 { studentId := "SV1", walletAddress := 5, scholarshipPercent := 0, isRegistered := true }) 6 { studentId := "SV2", walletAddress := 6, scholarshipPercent := 0, isRegistered := true }) 5 { studentId := "SV1", walletAddress := 5, scholarshipPercent := p, isRegistered := true }, studentIdToAddress := upd (upd (fun _ => 0) "SV1" 5) "SV2" 6, feeSchedules := upd (fun _ => FeeSchedule.zero) "2024-1" { semester := "2024-1", baseAmount := B, deadline := 10, isActive := true }, studentSemesterPayment := upd (fun _ _ => 0) 5 (upd (fun _ => 0) "2024-1" 1), studentPaymentIds := upd (fun _ => []) 5 [1], activeSemesters := ["2024-1"], registeredStudents := [5, 6], balance := 0 + B - B * p / 100 } := by
        simp only [run, List.foldl_cons, List.foldl_nil]
        rw [eA1, eA2, eA3, eB4, eB5]
      have h4eqB : replayScholarship { universityWallet := 1, paymentCounter := 0, totalCollected := 0, totalRefunded := 0, payments := fun _ => Payment.zero, students := upd (upd (fun _ => Student.zero) 5 { studentId := "SV1", walletAddress := 5, scholarshipPercent := 0, isRegistered := true }) 6 { studentId := "SV2", walletAddress := 6, scholarshipPercent := 0, isRegistered := true }, studentIdToAddress := upd (upd (fun _ => 0) "SV1" 5) "SV2" 6, feeSchedules := upd (fun _ => FeeSchedule.zero) "2024-1" { semester := "2024-1", baseAmount := B, deadline := 10, isActive := true }, studentSemesterPayment := fun _ _ => 0, studentPaymentIds := fun _ => [], activeSemesters := ["2024-1"], registeredStudents := [5, 6], balance := 0 } ⟨5, p⟩ = { universityWallet := 1, paymentCounter := 0, totalCollected := 0, totalRefunded := 0, payments := fun _ => Payment.zero, students := upd (upd (upd (fun _ => Student.zero) 5 { studentId := "SV1", walletAddress := 5, scholarshipPercent := 0, isRegistered := true }) 6 { studentId := "SV2", walletAddress := 6, scholarshipPercent := 0, isRegistered := true }) 5 { studentId := "SV1", walletAddress := 5, scholarshipPercent := p, isRegistered := true }, studentIdToAddress := upd (upd (fun _ => 0) "SV1" 5) "SV2" 6, feeSchedules := upd (fun _ => FeeSchedule.zero) "2024-1" { semester := "2024-1", baseAmount := B, deadline := 10, isActive := true }, studentSemesterPayment := fun _ _ => 0, studentPaymentIds := fun _ => [], activeSemesters := ["2024-1"], registeredStudents := [5, 6], balance := 0 } := replayScholarship_ok hschH
      have h5eqB : replayPayment { universityWallet := 1, paymentCounter := 0, totalCollected := 0, totalRefunded := 0, payments := fun _ => Payment.zero, students := upd (upd (upd (fun _ => Student.zero) 5 { studentId := "SV1", walletAddress := 5, scholarshipPercent := 0, isRegistered := true }) 6 { studentId := "SV2", walletAddress := 6, scholarshipPercent := 0, isRegistered := true }) 5 { studentId := "SV1", walletAddress := 5, scholarshipPercent := p, isRegistered := true }, studentIdToAddress := upd (upd (fun _ => 0) "SV1" 5) "SV2" 6, feeSchedules := upd (fun _ => FeeSchedule.zero) "2024-1" { semester := "2024-1", baseAmount := B, deadline := 10, isActive := true }, studentSemesterPayment := fun _ _ => 0, studentPaymentIds := fun _ => [], activeSemesters := ["2024-1"], registeredStudents := [5, 6], balance := 0 } ⟨5, "2024-1", B, 1⟩ = { universityWallet := 1, paymentCounter := 1, totalCollected := 0 + B, totalRefunded := 0, payments := upd (fun _ => Payment.zero) 1 { student := 5, studentId := "SV1", semester := "2024-1", amount := B, amountAfterRefund := (B - B * p / 100), timestamp := 1, paid := true, refunded := false }, students := upd (upd (upd (fun _ => Student.zero) 5 { studentId := "SV1", walletAddress := 5, scholarshipPercent := 0, isRegistered := true }) 6 { studentId := "SV2", walletAddress := 6, scholarshipPercent := 0, isRegistered := true }) 5 { studentId := "SV1", walletAddress := 5, scholarshipPercent := p, isRegistered := true }, studentIdToAddress := upd (upd (fun _ => 0) "SV1" 5) "SV2" 6, feeSchedules := upd (fun _ => FeeSchedule.zero) "2024-1" { semester := "2024-1", baseAmount := B, deadline := 10, isActive := true }, studentSemesterPayment := upd (fun _ _ => 0) 5 (upd (fun _ => 0) "2024-1" 1), studentPaymentIds := upd (fun _ => []) 5 [1], activeSemesters := ["2024-1"], registeredStudents := [5, 6], balance := 0 } :=
        replayPayment_ok (restorePayment_ok_gt rfl rfl
          (show B - B * p / 100 < B by omega))
      have erpB : replay 2 (snapSetScholarship (snapAddPayment (snapAddFeeSchedule (snapAddStudent (snapAddStudent Snapshot.empty 5 "SV1") 6 "SV2") "2024-1" B 10) 5 "2024-1" B 1) 5 p) (initState 1) = { universityWallet := 1, paymentCounter := 1, totalCollected := 0 + B, totalRefunded := 0, payments := upd (fun _ => Payment.zero) 1 { student := 5, studentId := "SV1", semester := "2024-1", amount := B, amountAfterRefund := (B - B * p / 100), timestamp := 1, paid := true, refunded := false }, students := upd (upd (upd (fun _ => Student.zero) 5 { studentId := "SV1", walletAddress := 5, scholarshipPercent := 0, isRegistered := true }) 6 { studentId := "SV2", walletAddress := 6, scholarshipPercent := 0, isRegistered := true }) 5 { studentId := "SV1", walletAddress := 5, scholarshipPercent := p, isRegistered := true }, studentIdToAddress := upd (upd (fun _ => 0) "SV1" 5) "SV2" 6, feeSchedules := upd (fun _ => FeeSchedule.zero) "2024-1" { semester := "2024-1", baseAmount := B, deadline := 10, isActive := true }, studentSemesterPayment := upd (fun _ _ => 0) 5 (upd (fun _ => 0) "2024-1" 1), studentPaymentIds := upd (fun _ => []) 5 [1], activeSemesters := ["2024-1"], registeredStudents := [5, 6], balance := 0 } := by
        rw [hsnapB]
        simp only [replay, List.foldl_cons, List.foldl_nil]
        rw [h1eq, h2eq, h3eq, h4eqB, h5eqB]
      refine ⟨?_, ?_, ?_⟩
      · rw [erB, erpB]
        refine ⟨rfl, rfl, ?_, fun w => rfl, fun sid => rfl,
          fun sem => ⟨rfl, rfl, rfl⟩, fun a sem => rfl, fun a => rfl, rfl, rfl⟩
        intro i
        show PaymentEqIgnTs ((upd (upd (fun _ => Payment.zero) 1 { student := 5, studentId := "SV1", semester := "2024-1", amount := B, amountAfterRefund := B, timestamp := 1, paid := true, refunded := false }) 1 { student := 5, studentId := "SV1", semester := "2024-1", amount := B, amountAfterRefund := (B - B * p / 100), timestamp := 1, paid := true, refunded := false } : Nat → Payment) i) ((upd (fun _ => Payment.zero) 1 { student := 5, studentId := "SV1", semester := "2024-1", amount := B, amountAfterRefund := (B - B * p / 100), timestamp := 1, paid := true, refunded := false } : Nat → Payment) i)
        by_cases hi : i = 1
        · subst hi
          exact paymentEqIgnTs_refl _
        · rw [upd_ne _ _ _ hi, upd_ne _ _ _ hi, upd_ne _ _ _ hi]
          exact paymentEqIgnTs_refl _
      · rw [erpB]
      · rw [erB]
        show 0 + B * p / 100 = B * p / 100
        omega

theorem c2_amended_restore_roundtrip_witness :
    (0:Nat) < 100 ∧ (30:Nat) ≤ 100 ∧
    (run (initState 1) [.registerStudent 5 "SV1", .registerStudent 6 "SV2",
      .setFeeSchedule "2024-1" 100 10 0, .payTuition 5 "2024-1" 100 1,
      .applyScholarship 5 30 true]).totalRefunded = 100 * 30 / 100 :=
  ⟨by decide, by decide,
    (c2_amended_restore_roundtrip 100 30 (by decide) (by decide)).2.2.2.2⟩

end Tuition
